import Mathlib

/-!
Verification of the ladatajusta scraping/curation pipeline.

This file gives a shallow embedding, in Lean 4, of the decision-making core of
the ladatajusta repository (quality gate, diversity curator, delayed
auto-publisher, URL fingerprinting, source error tracking, insert/dedupe
primitives and the notification queue), translated from the Python sources,
and proves or refutes the specified properties about them.

Conventions used throughout:
* Python strings are Lean `String`; `len` is `String.length` (both count
  Unicode code points).
* Database timestamps are integers (`Int`), measured in minutes where delays
  in minutes are compared against them.
* SQL result sets and tables are Lean lists of records; SQL `WHERE` clauses
  become `List.filter`, `ORDER BY` becomes the stable sort `pySort`
  (CPython's `list.sort` is also stable), `LIMIT` becomes `List.take`.
* Python `x or y` on strings (falsy = `None` or `""`) is `pyOr`.
* Similarity scores (Python floats / PostgreSQL reals) are modelled as `ℚ`;
  for the small intersection/union ratios produced by the code the float and
  rational comparisons against the 0.6 threshold agree.
-/

namespace LaDataJusta

/-- Python str.strip on a character list: drop leading and trailing whitespace. -/
def pyStripChars (l : List Char) : List Char :=
  ((l.dropWhile Char.isWhitespace).reverse.dropWhile Char.isWhitespace).reverse

/-- Python str.strip: remove leading and trailing whitespace. -/
def pyStrip (s : String) : String := String.mk (pyStripChars s.data)

/-- Python `a or b` for an optional string `a` (falsy values: absent, empty). -/
def pyOr (a : Option String) (b : String) : String :=
  match a with
  | none => b
  | some s => if s = "" then b else s

/-- Python truthiness of an optional string (`if not x` is `¬ pyTruthy x`). -/
def pyTruthy (a : Option String) : Bool :=
  match a with
  | none => false
  | some s => s ≠ ""

/-- Python `s[:n]` on a string. -/
def pyTake (n : Nat) (s : String) : String := String.mk (s.data.take n)

/-- Python `a or b` for two optional strings, keeping the optional result. -/
def pyOrOpt (a b : Option String) : Option String := if pyTruthy a then a else b

/-- Python `a or b` for an optional list (falsy values: absent, empty list). -/
def pyOrList (a : Option (List String)) (b : List String) : List String :=
  match a with
  | none => b
  | some l => if l.isEmpty then b else l

/-- Stable insertion into a sorted list: the new element, which preceded
the list elements in the input, goes before the first element it compares
less-or-equal to. -/
def insertS (le : α → α → Bool) (a : α) : List α → List α
  | [] => [a]
  | b :: t => if le a b then a :: b :: t else b :: insertS le a t

/-- Stable sort by a total boolean preorder: the model of CPython's stable
`list.sort` / `sorted` (the output of a stable sort is uniquely determined
by the ordering, so any faithful stable sort gives CPython's result). -/
def pySort (le : α → α → Bool) : List α → List α
  | [] => []
  | a :: t => insertS le a (pySort le t)

/-- Deduplication keeping the first occurrence of each element, in
first-occurrence order (the key order of a Python dict built by repeated
insertion). -/
def dedupFirst [DecidableEq α] : List α → List α
  | [] => []
  | a :: t => a :: (dedupFirst t).filter fun b => b ≠ a

/-! ## Notifier (src/scraping/telegram_notifier.py)

The notifier keeps a bounded `asyncio.Queue(maxsize=100)` of pending
normal-priority messages; `send_notification` is its only producer.  The
model state carries the queue contents (oldest first, as the consumer reads
in FIFO order), the list of messages sent immediately on the high-priority
path, and the statistics counters the code maintains.  Sending over the
network is external; `_send_message_safe` never raises and its outcome does
not affect `send_notification`'s control flow (the high-priority path
increments `sent` unconditionally), so the model records the attempted
immediate sends. -/

namespace Notifier

/-- Queue capacity: `asyncio.Queue(maxsize=100)` in `TelegramNotifier.__init__`. -/
def queueMaxsize : Nat := 100

/-- State of a `TelegramNotifier` as observed by `send_notification`. -/
structure State where
  enabled : Bool
  /-- Pending normal-priority messages, oldest first. -/
  queue : List String
  /-- Messages pushed on the high-priority (immediate) path, in order. -/
  sent_immediately : List String
  sent : Nat
  queued : Nat
  dropped : Nat
deriving DecidableEq, Repr

/-- TelegramNotifier.send_notification (telegram_notifier.py lines 136-170).
If disabled, do nothing.  High priority sends immediately, bypassing the
queue (and increments `sent` regardless of network outcome).  Normal
priority: if the queue is full the incoming message is discarded and
`dropped` incremented; otherwise it is appended to the queue. -/
def send_notification (st : State) (message : String) (priority : String) : State :=
  if st.enabled = false then st
  else if priority = "high" then
    { st with sent_immediately := st.sent_immediately ++ [message], sent := st.sent + 1 }
  else if queueMaxsize ≤ st.queue.length then
    { st with dropped := st.dropped + 1 }
  else
    { st with queue := st.queue ++ [message], queued := st.queued + 1 }

end Notifier

/-! ## Delayed Auto-Publisher candidate query (src/scraping/auto_publish.py)

`get_items_to_publish` is the SQL query selecting the auto-publish
candidates: an inner join of `scraping_items` with `scraping_sources` on
`ss.slug = si.source_media`, filtered on status, the source's auto_publish
flag, the per-source delay window and the absence of a publication link,
ordered by `status_updated_at` ascending and limited. -/

namespace AutoPublish

/-- The columns of `scraping_sources` used by the auto-publish query. -/
structure Source where
  id : Nat
  slug : String
  name : String
  auto_publish : Bool
  auto_publish_delay_minutes : Int
deriving DecidableEq, Repr

/-- The columns of `scraping_items` used by the auto-publish query. -/
structure Item where
  id : Nat
  source_media : String
  status : String
  status_updated_at : Int
  publication_id : Option Nat
deriving DecidableEq, Repr

/-- get_items_to_publish (auto_publish.py lines 60-102): the SQL

  FROM scraping_items si JOIN scraping_sources ss ON ss.slug = si.source_media
  WHERE si.status = \x27ready_to_publish\x27 AND ss.auto_publish = true
    AND si.status_updated_at <= NOW() - (ss.auto_publish_delay_minutes minutes)
    AND si.publication_id IS NULL
  ORDER BY si.status_updated_at ASC LIMIT $1

with `now` and timestamps in minutes. -/
def get_items_to_publish (items : List Item) (sources : List Source)
    (now : Int) (lim : Nat) : List (Item × Source) :=
  let joined := items.flatMap fun si =>
    (sources.filter fun ss => ss.slug == si.source_media).map fun ss => (si, ss)
  let matched := joined.filter fun p =>
    p.1.status == "ready_to_publish" && p.2.auto_publish &&
    decide (p.1.status_updated_at ≤ now - p.2.auto_publish_delay_minutes) &&
    p.1.publication_id == none
  (pySort (fun a b => decide (a.1.status_updated_at ≤ b.1.status_updated_at)) matched).take lim

end AutoPublish

/-! ## Source error tracking (src/scraping/scraper_service.py)

`update_source_stats` updates one `scraping_sources` row after a scrape run
and then auto-disables the source when `consecutive_errors` has reached
`max_consecutive_errors`.  `get_active_sources` is the query the scheduler
uses to pick the sources of a cycle: with `source_ids = None` it filters on
`is_active`; with an explicit id list it filters on ids only (no
`is_active` condition).  The scheduled cycle passes the live configuration's
`selected_source_ids` (scraper_service.py lines 946-947). -/

namespace ScraperService

/-- The columns of `scraping_sources` used by update_source_stats and
get_active_sources. -/
structure Source where
  id : Nat
  name : String
  is_active : Bool
  consecutive_errors : Nat
  max_consecutive_errors : Nat
  last_scrape_status : String
  last_scrape_message : String
  last_scrape_items_count : Nat
  total_items_scraped : Nat
  total_scrape_runs : Nat
deriving DecidableEq, Repr

/-- The first UPDATE of update_source_stats (scraper_service.py lines
141-171): on success the stats update resets `consecutive_errors` to 0,
otherwise it increments it. -/
def stats_update (s : Source) (status message : String) (items_count : Nat) : Source :=
  if status = "success" then
    { s with last_scrape_status := status, last_scrape_message := message,
             last_scrape_items_count := items_count,
             total_items_scraped := s.total_items_scraped + items_count,
             total_scrape_runs := s.total_scrape_runs + 1,
             consecutive_errors := 0 }
  else
    { s with last_scrape_status := status, last_scrape_message := message,
             last_scrape_items_count := items_count,
             total_scrape_runs := s.total_scrape_runs + 1,
             consecutive_errors := s.consecutive_errors + 1 }

/-- The second UPDATE of update_source_stats (lines 173-183): auto-disable
the source (prefixing its message) once
`consecutive_errors >= max_consecutive_errors`. -/
def auto_disable (s : Source) : Source :=
  if s.max_consecutive_errors ≤ s.consecutive_errors then
    { s with is_active := false,
             last_scrape_message := "Auto-disabled: " ++ s.last_scrape_message }
  else s

/-- update_source_stats (scraper_service.py lines 139-199) restricted to
the updated row: the stats update followed by the auto-disable check. -/
def update_source_stats (s : Source) (status message : String) (items_count : Nat) :
    Source :=
  auto_disable (stats_update s status message items_count)

/-- get_active_sources (scraper_service.py lines 102-136).  With
`source_ids = none` only active sources are returned; with an explicit
(nonempty) id list the query filters by id alone and does not check
`is_active`.  Both branches order by name. -/
def get_active_sources (sources : List Source) (source_ids : Option (List Nat)) :
    List Source :=
  match source_ids with
  | some ids =>
      if ids.length = 0 then []
      else pySort (fun a b => decide (a.name ≤ b.name))
        (sources.filter fun s => ids.contains s.id)
  | none =>
      pySort (fun a b => decide (a.name ≤ b.name))
        (sources.filter fun s => s.is_active)

/-- The sources processed by a scheduled scrape cycle: the main loop calls
`run_scraping(controller.config.get("selected_source_ids"))`, which calls
`get_active_sources(conn, source_ids)` (scraper_service.py lines 293, 946-947). -/
def scheduled_cycle_sources (sources : List Source)
    (selected_source_ids : Option (List Nat)) : List Source :=
  get_active_sources sources selected_source_ids

end ScraperService

/-! ## Insert/dedupe primitives (C3)

Two primitives write harvested items keyed by the URL fingerprint
`url_hash`:
* `upsert_scraping_item` (src/backend/app/api/routes/scraping_items.py lines
  167-215): `INSERT ... ON CONFLICT (url_hash) DO UPDATE` of the content
  fields, leaving `scraped_at` untouched;
* `insert_scraping_item` (src/scraping/lagaceta/scrape_lagaceta_db.py lines
  139-199): `INSERT ... ON CONFLICT (url_hash) DO NOTHING`, reporting
  whether a row was inserted.

The table is a list of rows; the unique index on `url_hash` means at most
one row matches, which the model expresses by updating every matching row
(equal to updating the single one under the uniqueness invariant). -/

namespace ItemStore

/-- A `scraping_items` row, restricted to the columns the two insert/dedupe
primitives write. -/
structure Row where
  url_hash : String
  content : String
  content_hash : String
  title : String
  subtitle : String
  summary : String
  raw_html : String
  author : String
  article_date : Int
  tags : List String
  image_urls : List String
  scraped_at : Int
  updated_at : Int
deriving DecidableEq, Repr

/-- The payload of one insert (ScrapingItemCreate / the lagaceta data dict). -/
structure NewItem where
  url_hash : String
  content : String
  content_hash : String
  title : String
  subtitle : String
  summary : String
  raw_html : String
  author : String
  article_date : Int
  tags : List String
  image_urls : List String
  scraped_at : Int
deriving DecidableEq, Repr

/-- The fresh row created when no conflicting row exists. -/
def NewItem.toRow (it : NewItem) (now : Int) : Row :=
  { url_hash := it.url_hash, content := it.content, content_hash := it.content_hash,
    title := it.title, subtitle := it.subtitle, summary := it.summary,
    raw_html := it.raw_html, author := it.author, article_date := it.article_date,
    tags := it.tags, image_urls := it.image_urls,
    scraped_at := it.scraped_at, updated_at := now }

/-- The ON CONFLICT DO UPDATE row: content fields refreshed from the payload,
`updated_at` set to now, `scraped_at` (and the key) kept from the existing row. -/
def Row.refresh (r : Row) (it : NewItem) (now : Int) : Row :=
  { r with content := it.content, content_hash := it.content_hash,
           title := it.title, subtitle := it.subtitle, summary := it.summary,
           raw_html := it.raw_html, author := it.author,
           article_date := it.article_date, tags := it.tags,
           image_urls := it.image_urls, updated_at := now }

/-- upsert_scraping_item: INSERT ... ON CONFLICT (url_hash) DO UPDATE. -/
def upsert_scraping_item (db : List Row) (it : NewItem) (now : Int) : List Row :=
  if db.any fun r => r.url_hash == it.url_hash then
    db.map fun r => if r.url_hash == it.url_hash then r.refresh it now else r
  else db ++ [it.toRow now]

/-- insert_scraping_item: INSERT ... ON CONFLICT (url_hash) DO NOTHING;
the Bool is the "INSERT 0 1" check (true iff a row was inserted). -/
def insert_scraping_item (db : List Row) (it : NewItem) (now : Int) :
    List Row × Bool :=
  if db.any fun r => r.url_hash == it.url_hash then (db, false)
  else (db ++ [it.toRow now], true)

end ItemStore

/-! ## Quality gate / Auto-Prepare (src/scraping/auto_prepare.py)

`validate_quality` checks an `ai_completed` item against the fixed quality
thresholds; `check_duplicate_by_title` asks the database for the most
similar already-published title (or enriched title of another queued item)
above the threshold; `process_item` chains them and performs the status
update.  The PostgreSQL `similarity` function (pg_trgm, external to the
repository) is a parameter `sim` of the model; the code compares it
strictly (`> 0.6`) against `SIMILARITY_THRESHOLD`.  SQL `LOWER` is
`String.toLower`.  `ai_metadata` is modelled after the JSON parse stanza:
a record of the keys read by the code (a string value that fails
`json.loads` becomes the empty record, i.e. all fields absent). -/

namespace AutoPrepare

def MIN_TITLE_LENGTH : Nat := 20
def MIN_SUMMARY_LENGTH : Nat := 50
def MIN_CONTENT_LENGTH : Nat := 100

/-- SIMILARITY_THRESHOLD = 0.6 in auto_prepare.py. -/
def SIMILARITY_THRESHOLD : ℚ := mkRat 3 5

def VALID_CATEGORIES : List String :=
  ["Ciencia", "Cultura", "Deportes", "Economía", "Educación",
   "Investigación", "Medio Ambiente", "Política", "Salud",
   "Sociedad", "Tecnología", "Turismo"]

/-- The keys of `ai_metadata` read by auto_prepare.py. -/
structure Metadata where
  sin_vueltas : Option String
  lo_central : Option String
  en_profundidad : Option String
  is_valid : Option Bool
  validation_reason : Option String
deriving DecidableEq, Repr

/-- The columns of an `ai_completed` item read by the quality gate. -/
structure Item where
  id : Nat
  ai_title : Option String
  ai_summary : Option String
  ai_category : Option String
  ai_metadata : Metadata
  content : Option String
deriving DecidableEq, Repr

/-- validate_quality (auto_prepare.py lines 160-214). Returns
(is_valid, reason); the checks run in source order and the first failing
one determines the reason.  The Python locals ai_title, ai_summary,
ai_category, content and the three renderings (each `item.get(...) or ""`)
are inlined as `pyOr` applications. -/
def validate_quality (item : Item) : Bool × String :=
  if (pyStrip (pyOr item.ai_title "")).length < MIN_TITLE_LENGTH then
    (false, "Título muy corto (" ++ toString (pyOr item.ai_title "").length
      ++ " chars, min " ++ toString MIN_TITLE_LENGTH ++ ")")
  else if (pyStrip (pyOr item.ai_summary "")).length < MIN_SUMMARY_LENGTH then
    (false, "Resumen muy corto (" ++ toString (pyOr item.ai_summary "").length
      ++ " chars, min " ++ toString MIN_SUMMARY_LENGTH ++ ")")
  else if (VALID_CATEGORIES.contains (pyOr item.ai_category "")) = false then
    (false, "Categoría inválida: " ++ pyOr item.ai_category "")
  else if pyOr item.ai_metadata.sin_vueltas "" = ""
      || (pyOr item.ai_metadata.sin_vueltas "").length < 20 then
    (false, "Falta contenido \x27Sin vueltas\x27")
  else if pyOr item.ai_metadata.lo_central "" = ""
      || (pyOr item.ai_metadata.lo_central "").length < 50 then
    (false, "Falta contenido \x27Lo central\x27")
  else if pyOr item.ai_metadata.en_profundidad "" = ""
      || (pyOr item.ai_metadata.en_profundidad "").length < MIN_CONTENT_LENGTH then
    (false, "Contenido \x27En profundidad\x27 muy corto ("
      ++ toString (pyOr item.ai_metadata.en_profundidad "").length ++ " chars)")
  else if (pyStrip (pyOr item.content "")).length < MIN_CONTENT_LENGTH then
    (false, "Contenido original muy corto ("
      ++ toString (pyOr item.content "").length ++ " chars)")
  else if item.ai_metadata.is_valid = some false then
    (false, (item.ai_metadata.validation_reason).getD "AI marcó como inválido")
  else
    (true, "OK")

/-- A `publications` row as read by the duplicate check. -/
structure Publication where
  id : Nat
  title : String
  state : String
deriving DecidableEq, Repr

/-- Another `scraping_items` row as read by the duplicate check. -/
structure OtherItem where
  id : Nat
  ai_title : Option String
  status : String
deriving DecidableEq, Repr

/-- The first element of maximal measure (SQL ORDER BY sim DESC LIMIT 1;
ties broken by taking the earlier row, the choice SQL leaves unspecified). -/
def argmaxBy (f : α → ℚ) : List α → Option α
  | [] => none
  | x :: xs => some (xs.foldl (fun b y => if f b < f y then y else b) x)

/-- check_duplicate_by_title (auto_prepare.py lines 98-157).  Returns the
matched title together with its similarity, querying first the published
publications and then the other queued/published scraping items.  Both SQL
filters use a strict comparison: similarity(...) > SIMILARITY_THRESHOLD. -/
def check_duplicate_by_title (sim : String → String → ℚ)
    (pubs : List Publication) (others : List OtherItem)
    (ai_title : Option String) (item_id : Nat) : Option (String × ℚ) :=
  if pyTruthy ai_title = false then none
  else
    let t := pyOr ai_title ""
    let pubMatches := pubs.filter fun p =>
      p.state == "published" && decide (SIMILARITY_THRESHOLD < sim p.title.toLower t.toLower)
    match argmaxBy (fun p => sim p.title.toLower t.toLower) pubMatches with
    | some p => some (p.title, sim p.title.toLower t.toLower)
    | none =>
      let itemMatches := others.filter fun o =>
        (o.id != item_id) && (o.status == "ready_to_publish" || o.status == "published") &&
        (o.ai_title != none) &&
        decide (SIMILARITY_THRESHOLD < sim (pyOr o.ai_title "").toLower t.toLower)
      match argmaxBy (fun o => sim (pyOr o.ai_title "").toLower t.toLower) itemMatches with
      | some o => some (pyOr o.ai_title "", sim (pyOr o.ai_title "").toLower t.toLower)
      | none => none

/-- Round half to even (the rounding used by Python string formatting). -/
def roundHalfEven (q : ℚ) : ℤ :=
  if q - ⌊q⌋ < 1 / 2 then ⌊q⌋
  else if (1 : ℚ) / 2 < q - ⌊q⌋ then ⌊q⌋ + 1
  else if ⌊q⌋ % 2 = 0 then ⌊q⌋ else ⌊q⌋ + 1

/-- Python format spec `:.0%` applied to a similarity score. -/
def pyPercent0 (q : ℚ) : String := toString (roundHalfEven (q * 100)) ++ "%"

/-- The status_message written when a duplicate is detected (process_item,
auto_prepare.py lines 266-274). -/
def dupMessage (title : String) (s : ℚ) : String :=
  "Duplicado detectado: " ++ pyPercent0 s ++ " similar a \x27" ++ pyTake 60 title ++ "\x27"

/-- The status_message written on approval (process_item, lines 276-290). -/
def approvalMessage (item : Item) : String :=
  let ai_title := pyOr item.ai_title ""
  let ai_summary := pyOr item.ai_summary ""
  let ai_category := pyOr item.ai_category ""
  "✓ Título: " ++ toString ai_title.length ++ "ch, Resumen: "
    ++ toString ai_summary.length ++ "ch, Cat: " ++ ai_category ++ ", Sin duplicados"

/-- The outcome of processing one item: the `action` recorded in the result
dict and the status / status_message written by update_item_status. -/
structure PrepResult where
  action : String
  status : String
  status_message : String
deriving DecidableEq, Repr

/-- process_item (auto_prepare.py lines 234-292): quality validation first
(failure keeps the item in ai_completed with a diagnostic message), then
the duplicate check (a match marks it duplicate recording title and score),
otherwise the item is marked ready_to_publish. -/
def process_item (sim : String → String → ℚ)
    (pubs : List Publication) (others : List OtherItem) (item : Item) : PrepResult :=
  let v := validate_quality item
  if v.1 = false then
    { action := "quality_failed", status := "ai_completed",
      status_message := "Auto-prepare: calidad insuficiente - " ++ v.2 }
  else
    match check_duplicate_by_title sim pubs others item.ai_title item.id with
    | some (t, s) =>
      { action := "duplicate", status := "duplicate", status_message := dupMessage t s }
    | none =>
      { action := "ready_to_publish", status := "ready_to_publish",
        status_message := approvalMessage item }

/-- The quality criteria exactly as the claim lists them (with the validity
flag criterion in its amended form: explicitly false). -/
def claimQualityFailure (item : Item) : Prop :=
  (pyOr item.ai_title "").length < MIN_TITLE_LENGTH ∨
  (pyOr item.ai_summary "").length < MIN_SUMMARY_LENGTH ∨
  (pyOr item.ai_category "") ∉ VALID_CATEGORIES ∨
  (pyOr item.ai_metadata.sin_vueltas "").length < 20 ∨
  (pyOr item.ai_metadata.lo_central "").length < 50 ∨
  (pyOr item.ai_metadata.en_profundidad "").length < MIN_CONTENT_LENGTH ∨
  (pyOr item.content "").length < MIN_CONTENT_LENGTH ∨
  item.ai_metadata.is_valid = some false

/-- The duplicate condition of the code: some published publication, or some
other queued/published item, has similarity strictly above the threshold
(and the candidate has a nonempty enriched title, or the check is skipped). -/
def hasStrictMatch (sim : String → String → ℚ)
    (pubs : List Publication) (others : List OtherItem) (item : Item) : Prop :=
  pyTruthy item.ai_title = true ∧
  ((∃ p ∈ pubs, p.state = "published" ∧
      SIMILARITY_THRESHOLD < sim p.title.toLower (pyOr item.ai_title "").toLower) ∨
   (∃ o ∈ others, o.id ≠ item.id ∧
      (o.status = "ready_to_publish" ∨ o.status = "published") ∧ o.ai_title ≠ none ∧
      SIMILARITY_THRESHOLD < sim (pyOr o.ai_title "").toLower (pyOr item.ai_title "").toLower))

instance (item : Item) : Decidable (claimQualityFailure item) := by
  unfold claimQualityFailure
  infer_instance

instance (sim : String → String → ℚ) (pubs : List Publication)
    (others : List OtherItem) (item : Item) :
    Decidable (hasStrictMatch sim pubs others item) := by
  unfold hasStrictMatch
  infer_instance

end AutoPrepare

/-! ## Diversity Curator (src/scraping/news_curator.py)

`select_curated_items` selects a balanced batch from the `ready_to_publish`
items: (1) cluster near-duplicate titles (`find_duplicates`, token-set
Jaccard similarity at threshold 0.6) and keep the most recent item of each
cluster (`select_best_from_duplicates`); (2) group survivors by category;
(3) seed with the newest item of every category; (4) fill up to the target
respecting per-category and per-source caps; (5) if the target is still
unmet, relax the caps.

The model follows the source exactly, with the mutable loop state made
explicit.  Python dict iteration order (insertion order) is modelled by
listing the categories in first-occurrence order; Python's stable
`list.sort(key=..., reverse=True)` is the stable sort `pySort` with the
descending comparison; Python's `max(..., key=...)` keeps the first
maximal element.  `Char.toLower` / `Char.isAlphanum` model `str.lower` and
the regex class `\w` exactly on ASCII (non-ASCII characters are kept, which
matches `\w` for the accented Latin letters occurring in titles). -/

namespace Curator

/-- Duplicate-detection threshold (find_duplicates default threshold=0.6). -/
def CURATOR_THRESHOLD : ℚ := mkRat 3 5

/-- A `ready_to_publish` item as used by the selection algorithm (the
columns read by select_curated_items; `created_at` is `si.scraped_at`). -/
structure CurItem where
  id : Nat
  title : String
  category : Option String
  source_media : Option String
  source_id : Option String
  created_at : Nat
deriving DecidableEq, Repr

/-- The category used for grouping and caps: item.get(\x27category\x27) or \x27general\x27. -/
def catOf (i : CurItem) : String := pyOr i.category "general"

/-- get_source_key: item.get(\x27source_media\x27) or item.get(\x27source_id\x27) or \x27unknown\x27. -/
def sourceKey (i : CurItem) : String := pyOr i.source_media (pyOr i.source_id "unknown")

/-- The stop words removed by normalize_title. -/
def stop_words : List String :=
  ["el", "la", "los", "las", "un", "una", "de", "del", "en", "con",
   "por", "para", "que", "y", "a", "su", "se", "es", "al"]

/-- Membership in the regex class `\w` (word characters). -/
def pyWordChar (c : Char) : Bool := c.isAlphanum || c = '_' || 128 ≤ c.toNat

/-- Split a character list on whitespace runs, dropping empty pieces
(Python str.split() with no arguments). -/
def splitWsAux : List Char → List Char → List (List Char)
  | [], acc => if acc.isEmpty then [] else [acc.reverse]
  | c :: rest, acc =>
    if c.isWhitespace then
      if acc.isEmpty then splitWsAux rest [] else acc.reverse :: splitWsAux rest []
    else splitWsAux rest (c :: acc)

def splitWs (l : List Char) : List (List Char) := splitWsAux l []

/-- The word list of normalize_title (news_curator.py lines 76-87):
lower-case, strip non-word non-space characters, split, drop stop words and
words of length at most 2. -/
def normalize_title_words (title : String) : List String :=
  let cleaned := (title.data.map Char.toLower).filter fun c =>
    pyWordChar c || c.isWhitespace
  ((splitWs cleaned).map String.mk).filter fun w =>
    !(stop_words.contains w) && 2 < w.length

/-- normalize_title returns the filtered words joined by single spaces. -/
def normalize_title (title : String) : String :=
  String.intercalate " " (normalize_title_words title)

/-- calculate_similarity (news_curator.py lines 90-101): token-set Jaccard
similarity of the normalized word sets (0 when either set is empty).
Splitting the joined normalize_title output recovers exactly the word list,
so the model takes the word sets directly; the sets are deduplicated lists
and the ratio is the exact rational intersection-size over union-size. -/
def calculate_similarity (t1 t2 : String) : ℚ :=
  let s1 := (normalize_title_words t1).eraseDups
  let s2 := (normalize_title_words t2).eraseDups
  if s1.isEmpty || s2.isEmpty then 0
  else mkRat ((s1.filter fun w => s2.contains w).length)
    ((s1 ++ s2.filter fun w => !(s1.contains w)).length)

/-- The inner loop of find_duplicates over the items after item1: collect
the ids of unprocessed items whose title is similar to item1\x27s, marking
them processed. -/
def innerScan (t1 : String) : List CurItem → List Nat → List Nat → List Nat × List Nat
  | [], processed, grp => (grp, processed)
  | i2 :: rest, processed, grp =>
    if processed.contains i2.id then innerScan t1 rest processed grp
    else if CURATOR_THRESHOLD ≤ calculate_similarity t1 i2.title then
      innerScan t1 rest (processed ++ [i2.id]) (grp ++ [i2.id])
    else innerScan t1 rest processed grp

/-- find_duplicates (news_curator.py lines 104-129): the outer loop, keyed
by the first item of each group; only groups with more than one member are
recorded. -/
def find_duplicatesAux : List CurItem → List Nat → List (Nat × List Nat)
  | [], _ => []
  | i1 :: rest, processed =>
    if processed.contains i1.id then find_duplicatesAux rest processed
    else
      let pg := innerScan i1.title rest (processed ++ [i1.id]) [i1.id]
      if 1 < pg.1.length then (i1.id, pg.1) :: find_duplicatesAux rest pg.2
      else find_duplicatesAux rest pg.2

def find_duplicates (items : List CurItem) : List (Nat × List Nat) :=
  find_duplicatesAux items []

/-- Python max(key=created_at): first element of maximal created_at. -/
def maxByCreated (x : CurItem) (l : List CurItem) : CurItem :=
  l.foldl (fun b y => if b.created_at < y.created_at then y else b) x

/-- The items_by_id dict: a Python dict comprehension keeps the last binding
of a repeated key. -/
def items_by_id (items : List CurItem) (i : Nat) : Option CurItem :=
  items.reverse.find? fun x => x.id == i

/-- The members of one duplicate group present in items_by_id. -/
def groupMembers (items : List CurItem) (ids : List Nat) : List CurItem :=
  ids.filterMap fun i => items_by_id items i

/-- The ids removed from one group: everyone except the first most recent. -/
def removedOfGroup (items : List CurItem) (ids : List Nat) : List Nat :=
  match groupMembers items ids with
  | [] => []
  | x :: xs =>
    let best := maxByCreated x xs
    ((x :: xs).filter fun i => i.id != best.id).map (·.id)

/-- select_best_from_duplicates (news_curator.py lines 132-155): drop from
the input every group member that is not its group\x27s most recent item. -/
def select_best_from_duplicates (items : List CurItem)
    (groups : List (Nat × List Nat)) : List CurItem :=
  let removed := groups.flatMap fun g => removedOfGroup items g.2
  items.filter fun i => !(removed.contains i.id)

/-- The categories present, in first-occurrence order (Python dict key
insertion order of the defaultdict built at lines 175-178). -/
def categoriesOf (items : List CurItem) : List String :=
  dedupFirst (items.map catOf)

/-- by_category: the grouping defaultdict as an association list in key
insertion order, each group in original item order. -/
def by_category (items : List CurItem) : List (String × List CurItem) :=
  (categoriesOf items).map fun c => (c, items.filter fun i => catOf i == c)

/-- cat_items.sort(key=created_at, reverse=True): stable descending sort. -/
def sortByDateDesc (l : List CurItem) : List CurItem :=
  pySort (fun a b => Nat.ble b.created_at a.created_at) l

/-- The mutable selection state of select_curated_items: the selected list
and the category/source counters. -/
structure SelState where
  selected : List CurItem
  catCounts : String → Nat
  srcCounts : String → Nat

def emptySel : SelState := ⟨[], fun _ => 0, fun _ => 0⟩

/-- defaultdict(int) increment. -/
def bump (f : String → Nat) (k : String) : String → Nat :=
  fun x => if x = k then f k + 1 else f x

/-- Appending one item to the selection, updating both counters
(category counted via the given key, as in the source). -/
def addSel (st : SelState) (ckey : String) (i : CurItem) : SelState :=
  { selected := st.selected ++ [i],
    catCounts := bump st.catCounts ckey,
    srcCounts := bump st.srcCounts (sourceKey i) }

/-- First pass (news_curator.py lines 189-200): seed the selection with the
newest item of every category present, with no cap or target check. -/
def pass1 (byCat : List (String × List CurItem)) : SelState :=
  byCat.foldl (fun st cl =>
    match sortByDateDesc cl.2 with
    | [] => st
    | item :: _ => addSel st cl.1 item) emptySel

/-- all_remaining (lines 202-210): every grouped item not selected, groups
visited in key order (each already sorted in place by the first pass), then
the whole list stably sorted by recency. -/
def curatorRemaining (items1 : List CurItem) (sel : List CurItem) : List CurItem :=
  sortByDateDesc (((by_category items1).flatMap fun cl => sortByDateDesc cl.2).filter
    fun i => !(sel.contains i))

/-- Second pass (lines 212-227): fill up to the target, skipping items that
would push a category above max_per_category or a source above
max_per_source; the loop breaks once the target is reached. -/
def fillPass (target mc ms : Nat) : List CurItem → SelState → SelState
  | [], st => st
  | i :: rest, st =>
    if target ≤ st.selected.length then st
    else if mc ≤ st.catCounts (catOf i) then fillPass target mc ms rest st
    else if ms ≤ st.srcCounts (sourceKey i) then fillPass target mc ms rest st
    else fillPass target mc ms rest (addSel st (catOf i) i)

/-- Relaxation pass (lines 229-235): if still under target, append any
remaining not-yet-selected items up to the target, ignoring the caps. -/
def relaxPass (target : Nat) : List CurItem → List CurItem → List CurItem
  | [], sel => sel
  | i :: rest, sel =>
    if target ≤ sel.length then sel
    else if sel.contains i then relaxPass target rest sel
    else relaxPass target rest (sel ++ [i])

/-- The deduplication survivors: step 1 of select_curated_items. -/
def curatorSurvivors (items : List CurItem) : List CurItem :=
  select_best_from_duplicates items (find_duplicates items)

/-- The state after the seeding pass. -/
def curatorPass1 (items : List CurItem) : SelState :=
  pass1 (by_category (curatorSurvivors items))

/-- The state after the capped fill pass. -/
def curatorAfterFill (items : List CurItem) (target mc ms : Nat) : SelState :=
  fillPass target mc ms
    (curatorRemaining (curatorSurvivors items) (curatorPass1 items).selected)
    (curatorPass1 items)

/-- select_curated_items (news_curator.py lines 158-237). -/
def select_curated_items (items : List CurItem)
    (target_count max_per_category max_per_source : Nat) : List CurItem :=
  if items.isEmpty then []
  else
    let st2 := curatorAfterFill items target_count max_per_category max_per_source
    if st2.selected.length < target_count then
      relaxPass target_count
        (curatorRemaining (curatorSurvivors items) (curatorPass1 items).selected)
        st2.selected
    else st2.selected

/-- How many selected items carry the given category. -/
def catCount (sel : List CurItem) (c : String) : Nat :=
  (sel.filter fun i => catOf i == c).length

/-- How many selected items carry the given source key. -/
def srcCount (sel : List CurItem) (s : String) : Nat :=
  (sel.filter fun i => sourceKey i == s).length

/-- One step of the seeding pass expressed per category key: pass1 over
by_category is the fold of this step over the category list. -/
def seedStep (items1 : List CurItem) (st : SelState) (c : String) : SelState :=
  match sortByDateDesc (items1.filter fun i => catOf i == c) with
  | [] => st
  | item :: _ => addSel st c item

/-- The selection-state invariant: the counters track the actual category
and source multiplicities of the selected list. -/
def CountsOk (st : SelState) : Prop :=
  (∀ c, st.catCounts c = catCount st.selected c) ∧
  (∀ s, st.srcCounts s = srcCount st.selected s)

/-- Number of distinct categories in the raw input. -/
def numInputCategories (items : List CurItem) : Nat := (categoriesOf items).length

/-- Number of distinct categories among the deduplication survivors. -/
def numSurvivorCategories (items : List CurItem) : Nat :=
  (categoriesOf (curatorSurvivors items)).length

end Curator

/-! ## The two publish paths (C8)

`create_publication` exists twice: in src/scraping/news_curator.py (lines
249-360, the Curator) and in src/scraping/auto_publish.py (lines 114-229,
the Delayed Auto-Publisher).  Both build a `publications` row from a
scraping item and update the item to `published`.  The model renders each
as a pure function from the item (and the slug-collision oracle
`slug_exists`, standing for the `check_slug_exists` query) to the inserted
row and the item status update; `none` is the `{"error": "No title
available"}` early return, after which nothing is written.

The two `slugify` helpers are textually identical apart from the curator's
guard for empty input (the auto-publisher version is only ever applied to
a truthy title, where the guard is irrelevant), so a single definition
serves both.  `unicodedata.normalize("NFKD", ...)` followed by
ascii-ignore is modelled by `asciiFold`, exact on ASCII and on the
Latin-1 accented letters (other characters are dropped, as ascii-ignore
drops anything without an ASCII-convertible decomposition).

The curator serializes the media list with `json.dumps` while the
auto-publisher passes the list itself; both rows are modelled with the
structured list (the serialization is a driver-level representation of the
same value). -/

namespace Publish

/-- Decompose one character to its ASCII fold (NFKD + encode ascii ignore):
ASCII characters survive, Latin accented letters lose their accents,
anything else is dropped. -/
def asciiFold (c : Char) : List Char :=
  if c.toNat < 128 then [c]
  else if c ∈ ['á', 'à', 'ä', 'â', 'ã', 'å'] then ['a']
  else if c ∈ ['Á', 'À', 'Ä', 'Â', 'Ã', 'Å'] then ['A']
  else if c ∈ ['é', 'è', 'ë', 'ê'] then ['e']
  else if c ∈ ['É', 'È', 'Ë', 'Ê'] then ['E']
  else if c ∈ ['í', 'ì', 'ï', 'î'] then ['i']
  else if c ∈ ['Í', 'Ì', 'Ï', 'Î'] then ['I']
  else if c ∈ ['ó', 'ò', 'ö', 'ô', 'õ'] then ['o']
  else if c ∈ ['Ó', 'Ò', 'Ö', 'Ô', 'Õ'] then ['O']
  else if c ∈ ['ú', 'ù', 'ü', 'û'] then ['u']
  else if c ∈ ['Ú', 'Ù', 'Ü', 'Û'] then ['U']
  else if c = 'ñ' then ['n']
  else if c = 'Ñ' then ['N']
  else if c = 'ç' then ['c']
  else if c = 'Ç' then ['C']
  else []

/-- re.sub(r"[-\s]+", "-", ...): collapse every run of hyphens and
whitespace into a single hyphen (the flag says whether we are inside a run). -/
def collapseDashAux : List Char → Bool → List Char
  | [], _ => []
  | c :: rest, inRun =>
    if c = '-' || c.isWhitespace then
      if inRun then collapseDashAux rest true else '-' :: collapseDashAux rest true
    else c :: collapseDashAux rest false

/-- slugify (news_curator.py lines 28-42 and auto_publish.py lines 45-57):
NFKD-fold to ASCII, lower-case, drop characters outside `[\w\s-]`,
collapse hyphen/whitespace runs to single hyphens, strip outer hyphens,
truncate to 100 characters. -/
def slugify (text : String) : String :=
  if text = "" then ""
  else
    let folded := text.data.flatMap asciiFold
    let lowered := folded.map Char.toLower
    let cleaned := lowered.filter fun c =>
      c.isAlphanum || c = '_' || c.isWhitespace || c = '-'
    let dashed := collapseDashAux cleaned false
    let stripped :=
      ((dashed.dropWhile (fun c => c = '-')).reverse.dropWhile (fun c => c = '-')).reverse
    String.mk (stripped.take 100)

/-- The scraping item columns read by either create_publication. -/
structure PubItem where
  id : Nat
  title : Option String
  ai_title : Option String
  summary : Option String
  ai_summary : Option String
  content : Option String
  category : Option String
  ai_category : Option String
  tags : Option (List String)
  ai_tags : Option (List String)
  ai_metadata : AutoPrepare.Metadata
  image_urls : Option (List String)
deriving DecidableEq, Repr

/-- One entry of the media JSON array built from image_urls. -/
structure MediaEntry where
  type : String
  url : String
  caption : String
  order : Nat
deriving DecidableEq, Repr

/-- The media list: one image entry per URL, in order. -/
def mediaOf (image_urls : Option (List String)) : List MediaEntry :=
  (pyOrList image_urls []).enum.map fun p =>
    { type := "image", url := p.2, caption := "", order := p.1 }

/-- One lowercase hex digit, for the \uXXXX escapes of json.dumps. -/
def jsonHexDigit (n : Nat) : Char :=
  (((List.range 10).map fun k => Char.ofNat (48 + k))
    ++ ((List.range 6).map fun k => Char.ofNat (97 + k))).getD n '0'

/-- A \uXXXX escape, four lowercase hex digits. -/
def uEscape (n : Nat) : List Char :=
  ['\\', 'u', jsonHexDigit (n / 4096 % 16), jsonHexDigit (n / 256 % 16),
   jsonHexDigit (n / 16 % 16), jsonHexDigit (n % 16)]

/-- json.dumps string escaping with the default ensure_ascii=True:
backslash, double quote and the named control characters get two-character
escapes, every other character outside U+0020..U+007E becomes \uXXXX
(a surrogate pair beyond the BMP), and printable ASCII passes through. -/
def jsonEscapeChar (c : Char) : List Char :=
  if c = '\\' then ['\\', '\\']
  else if c = '"' then ['\\', '"']
  else if c.toNat = 8 then ['\\', 'b']
  else if c.toNat = 9 then ['\\', 't']
  else if c.toNat = 10 then ['\\', 'n']
  else if c.toNat = 12 then ['\\', 'f']
  else if c.toNat = 13 then ['\\', 'r']
  else if 32 ≤ c.toNat ∧ c.toNat ≤ 126 then [c]
  else if c.toNat < 65536 then uEscape c.toNat
  else
    let n := c.toNat - 65536
    uEscape (55296 + n / 1024) ++ uEscape (56320 + n % 1024)

/-- json.dumps of a Python str. -/
def jsonString (s : String) : String :=
  "\"" ++ String.mk (s.data.flatMap jsonEscapeChar) ++ "\""

/-- Pieces joined by the default json.dumps item separator. -/
def joinComma : List String → String
  | [] => ""
  | [s] => s
  | s :: rest => s ++ ", " ++ joinComma rest

/-- json.dumps of the media list of dicts, with CPython default separators
and the dict insertion order type, url, caption, order. -/
def jsonMedia (l : List MediaEntry) : String :=
  "[" ++ joinComma (l.map fun m =>
    "\x7b\"type\": " ++ jsonString m.type
      ++ ", \"url\": " ++ jsonString m.url
      ++ ", \"caption\": " ++ jsonString m.caption
      ++ ", \"order\": " ++ toString m.order ++ "\x7d") ++ "]"

/-- The value bound to the JSONB media insert parameter: the curator
passes the json.dumps serialization (a str), the auto-publisher passes the
raw Python list of dicts. -/
inductive MediaParam where
  | jsonStr (s : String)
  | rawList (l : List MediaEntry)
deriving DecidableEq, Repr

/-- The `publications` row inserted by either create_publication
(columns receiving non-constant values, plus the constant state and
origin_type; id and the NOW() timestamps are generated outside the model). -/
structure PubRow where
  scraping_item_id : Nat
  state : String
  title : String
  slug : String
  summary : String
  body : String
  category : Option String
  tags : List String
  content_sin_vueltas : Option String
  content_lo_central : Option String
  content_en_profundidad : Option String
  media : MediaParam
  origin_type : String
deriving DecidableEq, Repr

/-- The UPDATE applied to the scraping item after the insert. -/
structure ItemUpdate where
  status : String
  status_message : String
deriving DecidableEq, Repr

/-- Slug generation shared verbatim by both paths: slugify the title, fall
back to an id-derived slug, and suffix the short id on collision. -/
def slugFor (slug_exists : String → Bool) (title : String) (item_id : Nat) : String :=
  let slug_base := slugify title
  let slug_base :=
    if slug_base = "" then "articulo-" ++ pyTake 8 (toString item_id) else slug_base
  if slug_exists slug_base then slug_base ++ "-" ++ pyTake 8 (toString item_id)
  else slug_base

/-- create_publication of the Curator (news_curator.py lines 249-360). -/
def curator_create_publication (slug_exists : String → Bool) (item : PubItem) :
    Option (PubRow × ItemUpdate) :=
  let title := pyOrOpt item.ai_title item.title
  if pyTruthy title = false then none
  else
    let titleS := pyOr title ""
    some ({ scraping_item_id := item.id,
            state := "published",
            title := titleS,
            slug := slugFor slug_exists titleS item.id,
            summary := pyOr item.ai_summary (pyOr item.summary ""),
            body := pyOr item.content "",
            category := pyOrOpt item.ai_category item.category,
            tags := pyOrList item.ai_tags [],
            content_sin_vueltas := item.ai_metadata.sin_vueltas,
            content_lo_central := item.ai_metadata.lo_central,
            content_en_profundidad := item.ai_metadata.en_profundidad,
            media := MediaParam.jsonStr
              (if (mediaOf item.image_urls).isEmpty then jsonMedia []
               else jsonMedia (mediaOf item.image_urls)),
            origin_type := "detected_media" },
          { status := "published", status_message := "Publicado por curador" })

/-- create_publication of the Auto-Publisher (auto_publish.py lines 114-229). -/
def autopub_create_publication (slug_exists : String → Bool) (item : PubItem) :
    Option (PubRow × ItemUpdate) :=
  let title := pyOrOpt item.ai_title item.title
  if pyTruthy title = false then none
  else
    let titleS := pyOr title ""
    some ({ scraping_item_id := item.id,
            state := "published",
            title := titleS,
            slug := slugFor slug_exists titleS item.id,
            summary := pyOr item.ai_summary (pyOr item.summary ""),
            body := pyOr item.content "",
            category := item.ai_category,
            tags := pyOrList item.ai_tags (pyOrList item.tags []),
            content_sin_vueltas := item.ai_metadata.sin_vueltas,
            content_lo_central := item.ai_metadata.lo_central,
            content_en_profundidad := item.ai_metadata.en_profundidad,
            media := MediaParam.rawList
              (if (mediaOf item.image_urls).isEmpty then []
               else mediaOf item.image_urls),
            origin_type := "detected_media" },
          { status := "published", status_message := "Auto-publicado" })

end Publish

/-! ## Fingerprint Engine (src/backend/app/scrape/deduplication.py)

`normalize_url` is built on the Python standard library's
`urllib.parse.urlparse`, `parse_qs`, `urlencode` and `urlunparse`; the model
reimplements those (CPython 3.11 semantics) over character lists:
* `urlparse`: strip C0 controls and spaces, remove tab/CR/LF, split off a
  well-formed scheme (lower-cased), a `//`-prefixed netloc, the fragment at
  the first `#`, the query at the first `?`, and path parameters after the
  first `;` of the last path segment;
* `parse_qs` (with keep_blank_values=True): split the query on `&`, skip
  empty fields, split each field at the first `=` (absent means empty
  value), turn `+` into spaces and percent-decode (UTF-8 with replacement),
  and group values by key in first-occurrence order;
* `urlencode` (doseq=True, quote_plus): re-encode each key/value with
  `%`-escapes (uppercase hex) for everything outside the always-safe set,
  spaces as `+`, joined with `&`.

`hash_text` is SHA-256 of the UTF-8 bytes, rendered as 64 lowercase hex
characters; the compression function is implemented in full over `Nat`
with explicit reduction mod 2^32. -/

namespace Dedup

/-- Hex digit value of a character (both cases), as accepted by unquote. -/
def hexVal (c : Char) : Option Nat :=
  if '0' ≤ c ∧ c ≤ '9' then some (c.toNat - '0'.toNat)
  else if 'a' ≤ c ∧ c ≤ 'f' then some (c.toNat - 'a'.toNat + 10)
  else if 'A' ≤ c ∧ c ≤ 'F' then some (c.toNat - 'A'.toNat + 10)
  else none

/-- UTF-8 encoding of one character. -/
def utf8EncodeChar (c : Char) : List Nat :=
  let n := c.toNat
  if n < 0x80 then [n]
  else if n < 0x800 then
    [0xC0 ||| (n >>> 6), 0x80 ||| (n &&& 0x3F)]
  else if n < 0x10000 then
    [0xE0 ||| (n >>> 12), 0x80 ||| ((n >>> 6) &&& 0x3F), 0x80 ||| (n &&& 0x3F)]
  else
    [0xF0 ||| (n >>> 18), 0x80 ||| ((n >>> 12) &&& 0x3F),
     0x80 ||| ((n >>> 6) &&& 0x3F), 0x80 ||| (n &&& 0x3F)]

/-- UTF-8 encoding of a character list. -/
def utf8Encode (l : List Char) : List Nat := l.flatMap utf8EncodeChar

/-- The Unicode replacement character used by errors=replace decoding. -/
def replChar : Char := Char.ofNat 0xFFFD

/-- Continuation byte test. -/
def isCont (b : Nat) : Bool := 0x80 ≤ b && b < 0xC0

/-- UTF-8 decoding with replacement of malformed sequences. -/
def utf8Decode : List Nat → List Char
  | [] => []
  | b :: rest =>
    if b < 0x80 then Char.ofNat b :: utf8Decode rest
    else if b < 0xC2 then replChar :: utf8Decode rest
    else if b < 0xE0 then
      match rest with
      | c1 :: rest2 =>
        if isCont c1 then
          Char.ofNat (((b - 0xC0) <<< 6) + (c1 - 0x80)) :: utf8Decode rest2
        else replChar :: utf8Decode (c1 :: rest2)
      | [] => [replChar]
    else if b < 0xF0 then
      match rest with
      | c1 :: c2 :: rest2 =>
        if isCont c1 && isCont c2 &&
            !(b = 0xE0 && c1 < 0xA0) && !(b = 0xED && 0xA0 ≤ c1) then
          Char.ofNat (((b - 0xE0) <<< 12) + ((c1 - 0x80) <<< 6) + (c2 - 0x80))
            :: utf8Decode rest2
        else replChar :: utf8Decode (c1 :: c2 :: rest2)
      | [c1] => replChar :: utf8Decode [c1]
      | [] => [replChar]
    else if b < 0xF5 then
      match rest with
      | c1 :: c2 :: c3 :: rest2 =>
        if isCont c1 && isCont c2 && isCont c3 &&
            !(b = 0xF0 && c1 < 0x90) && !(b = 0xF4 && 0x90 ≤ c1) then
          Char.ofNat (((b - 0xF0) <<< 18) + ((c1 - 0x80) <<< 12)
            + ((c2 - 0x80) <<< 6) + (c3 - 0x80)) :: utf8Decode rest2
        else replChar :: utf8Decode (c1 :: c2 :: c3 :: rest2)
      | [c1, c2] => replChar :: utf8Decode [c1, c2]
      | [c1] => replChar :: utf8Decode [c1]
      | [] => [replChar]
    else replChar :: utf8Decode rest

/-- urllib.parse.unquote: decode runs of %HH escapes as UTF-8 byte
sequences; a `%` not followed by two hex digits is literal.  The
accumulator holds the pending byte run. -/
def unquoteAux : List Char → List Nat → List Char
  | [], acc => utf8Decode acc
  | '%' :: h1 :: h2 :: rest2, acc =>
    match hexVal h1, hexVal h2 with
    | some a, some b => unquoteAux rest2 (acc ++ [16 * a + b])
    | _, _ => utf8Decode acc ++ '%' :: unquoteAux (h1 :: h2 :: rest2) []
  | '%' :: rest, acc => utf8Decode acc ++ '%' :: unquoteAux rest []
  | c :: rest, acc => utf8Decode acc ++ c :: unquoteAux rest []

def unquote (s : String) : String := String.mk (unquoteAux s.data [])

/-- Characters CPython quote never escapes (ALPHA / DIGIT / `_.-~`). -/
def alwaysSafe (c : Char) : Bool := c.isAlphanum || c ∈ ['_', '.', '-', '~']

/-- Uppercase hex digit, for percent escapes (digits then A-F, built from
character codes). -/
def hexDigitUpper (n : Nat) : Char :=
  (((List.range 10).map fun k => Char.ofNat (48 + k))
    ++ ((List.range 6).map fun k => Char.ofNat (65 + k))).getD n '0'

/-- quote_plus with safe set empty, applied character-wise: safe characters
survive, space becomes `+`, everything else is percent-encoded byte-wise. -/
def quotePlusChar (c : Char) : List Char :=
  if alwaysSafe c then [c]
  else if c = ' ' then ['+']
  else (utf8EncodeChar c).flatMap fun b =>
    ['%', hexDigitUpper (b / 16 % 16), hexDigitUpper (b % 16)]

def quote_plus (s : String) : String := String.mk (s.data.flatMap quotePlusChar)

/-- Split on a separator character, keeping empty pieces. -/
def splitOnCharAux (sep : Char) : List Char → List Char → List (List Char)
  | [], acc => [acc.reverse]
  | c :: rest, acc =>
    if c = sep then acc.reverse :: splitOnCharAux sep rest []
    else splitOnCharAux sep rest (c :: acc)

/-- Python str.replace of `+` by space (applied before unquote). -/
def plusToSpace (c : Char) : Char := if c = '+' then ' ' else c

/-- parse_qsl with keep_blank_values=True: split on `&`, skip empty fields,
split each field at the first `=` (a field without `=` gets an empty
value), then `+`-to-space and percent-decode name and value. -/
def parse_qsl (qs : String) : List (String × String) :=
  (splitOnCharAux '&' qs.data []).filterMap fun f =>
    if f.isEmpty then none
    else
      let name := f.takeWhile fun c => c ≠ '='
      let value := if name.length < f.length then f.drop (name.length + 1) else []
      some (unquote (String.mk (name.map plusToSpace)),
            unquote (String.mk (value.map plusToSpace)))

/-- Append a value to its key group (Python dict insertion order). -/
def insertQS (d : List (String × List String)) (k v : String) :
    List (String × List String) :=
  match d with
  | [] => [(k, [v])]
  | (k2, vs) :: rest =>
    if k2 = k then (k2, vs ++ [v]) :: rest else (k2, vs) :: insertQS rest k v

/-- parse_qs: the parsed pairs grouped by key, keys in first-occurrence
order, values in field order. -/
def parse_qs (qs : String) : List (String × List String) :=
  (parse_qsl qs).foldl (fun d p => insertQS d p.1 p.2) []

/-- Dictionary lookup in a parse_qs result: the value list bound to a key. -/
def qsLookup (d : List (String × List String)) (n : String) : Option (List String) :=
  (d.find? fun p => p.1 == n).map fun p => p.2

/-- urlencode with doseq=True and quote_plus. -/
def urlencode (l : List (String × List String)) : String :=
  String.intercalate "&" (l.flatMap fun p =>
    p.2.map fun v => quote_plus p.1 ++ "=" ++ quote_plus v)

/-- Scheme characters: letters, digits, `+`, `-`, `.`. -/
def isSchemeChar (c : Char) : Bool := c.isAlphanum || c ∈ ['+', '-', '.']

/-- Split a leading well-formed scheme (lower-cased) at the first `:`. -/
def splitScheme (l : List Char) : Option (List Char) × List Char :=
  let pre := l.takeWhile fun c => c ≠ ':'
  if pre.length < l.length ∧ ¬ pre.isEmpty ∧
      (pre.headD ' ').isAlpha ∧ pre.all isSchemeChar then
    (some (pre.map Char.toLower), l.drop (pre.length + 1))
  else (none, l)

/-- Split a `//`-prefixed netloc, delimited by the next `/`, `?` or `#`. -/
def splitNetloc (l : List Char) : List Char × List Char :=
  if l.take 2 = ['/', '/'] then
    let rest := l.drop 2
    let nl := rest.takeWhile fun c => c ∉ ['/', '?', '#']
    (nl, rest.drop nl.length)
  else ([], l)

/-- Split at the first occurrence of a delimiter, if any. -/
def splitOnFirst (sep : Char) (l : List Char) : List Char × Option (List Char) :=
  let pre := l.takeWhile fun c => c ≠ sep
  if pre.length < l.length then (pre, some (l.drop (pre.length + 1))) else (l, none)

/-- The _splitparams step of urlparse: split path parameters after the
first `;` of the last path segment. -/
def splitParams (p : List Char) : List Char × List Char :=
  if p.contains ';' then
    let lastSlash := ((p.enum.filter fun q => q.2 = '/').map fun q => q.1).getLast?
    match lastSlash with
    | some k =>
      match (p.drop k).findIdx? fun c => c = ';' with
      | some off => (p.take (k + off), p.drop (k + off + 1))
      | none => (p, [])
    | none =>
      match p.findIdx? fun c => c = ';' with
      | some i => (p.take i, p.drop (i + 1))
      | none => (p, [])
  else (p, [])

/-- The six components of urlparse. -/
structure UrlParts where
  scheme : String
  netloc : String
  path : String
  params : String
  query : String
  fragment : String
deriving DecidableEq, Repr

/-- CPython also strips C0 control characters and spaces at both ends and
removes tab, CR and LF anywhere before parsing. -/
def sanitizeUrl (l : List Char) : List Char :=
  (((l.dropWhile fun c => c.toNat ≤ 0x20).reverse.dropWhile
      fun c => c.toNat ≤ 0x20).reverse).filter fun c => c ∉ ['\t', '\r', '\n']

/-- urllib.parse.urlparse. -/
def urlparse (url : String) : UrlParts :=
  let l := sanitizeUrl url.data
  let sr := splitScheme l
  let nr := splitNetloc sr.2
  let fr := splitOnFirst '#' nr.2
  let qr := splitOnFirst '?' fr.1
  let pp := splitParams qr.1
  { scheme := String.mk (sr.1.getD []),
    netloc := String.mk nr.1,
    path := String.mk pp.1,
    params := String.mk pp.2,
    query := String.mk (qr.2.getD []),
    fragment := String.mk (fr.2.getD []) }

/-- urllib.parse.urlunparse restricted to its use in normalize_url. -/
def urlunparse (scheme netloc path params query fragment : String) : String :=
  let url := if params = "" then path else path ++ ";" ++ params
  let url :=
    if netloc ≠ "" ∨ (url ≠ "" ∧ url.data.take 2 = ['/', '/']) then
      "//" ++ netloc ++
        (if url ≠ "" ∧ url.data.head? ≠ some '/' then "/" ++ url else url)
    else url
  let url := if scheme ≠ "" then scheme ++ ":" ++ url else url
  let url := if query ≠ "" then url ++ "?" ++ query else url
  if fragment ≠ "" then url ++ "#" ++ fragment else url

/-- The fixed set of tracking query parameters removed by normalize_url. -/
def tracking_params : List String :=
  ["utm_source", "utm_medium", "utm_campaign", "utm_term", "utm_content",
   "fbclid", "gclid", "msclkid", "_ga", "mc_cid", "mc_eid"]

/-- Python path.rstrip("/") or "/". -/
def rstripSlashOrRoot (path : String) : String :=
  let p := (path.data.reverse.dropWhile fun c => c = '/').reverse
  if p.isEmpty then "/" else String.mk p

/-- netloc after removal of the scheme default port (rsplit at the last
colon; ports 80 for http and 443 for https). -/
def stripDefaultPort (scheme netloc : String) : String :=
  if netloc.data.contains ':' then
    let port := (netloc.data.reverse.takeWhile fun c => c ≠ ':').reverse
    let host := netloc.data.take (netloc.data.length - port.length - 1)
    if (scheme = "http" ∧ String.mk port = "80") ∨
        (scheme = "https" ∧ String.mk port = "443") then String.mk host
    else netloc
  else netloc

/-- The key-sorted, tracking-filtered query re-encoding of normalize_url:
sorted(filtered_params.items()) and urlencode(..., doseq=True). -/
def sortedQuery (query : String) : String :=
  let query_params := parse_qs query
  let filtered := query_params.filter fun p => !(tracking_params.contains p.1)
  urlencode (pySort (fun a b => decide (a.1 ≤ b.1)) filtered)

/-- Python str.lower over the ASCII range (str.lower on scheme and netloc;
same character mapping as String.toLower, written as a structural list map). -/
def lowerStr (s : String) : String := String.mk (s.data.map Char.toLower)

/-- normalize_url (deduplication.py lines 10-69). -/
def normalize_url (url : String) : String :=
  let parsed := urlparse (pyStrip url)
  let scheme := lowerStr parsed.scheme
  let netloc := stripDefaultPort scheme (lowerStr parsed.netloc)
  let path := rstripSlashOrRoot parsed.path
  urlunparse scheme netloc path "" (sortedQuery parsed.query) ""

/-! ### SHA-256 (hashlib.sha256(...).hexdigest()) -/

/-- 32-bit truncation. -/
def m32 (n : Nat) : Nat := n % 4294967296

/-- Rotate a 32-bit word right. -/
def rotr (x n : Nat) : Nat := m32 ((x >>> n) ||| (x <<< (32 - n)))

/-- The eight working variables of the SHA-256 compression function. -/
structure H8 where
  a : Nat
  b : Nat
  c : Nat
  d : Nat
  e : Nat
  f : Nat
  g : Nat
  h : Nat

/-- SHA-256 initial hash value. -/
def sha256Init : H8 :=
  ⟨1779033703, 3144134277, 1013904242, 2773480762,
   1359893119, 2600822924, 528734635, 1541459225⟩

/-- SHA-256 round constants (FIPS 180-4, written in decimal). -/
def sha256K : List Nat :=
  [1116352408, 1899447441, 3049323471, 3921009573, 961987163, 1508970993,
   2453635748, 2870763221, 3624381080, 310598401, 607225278, 1426881987,
   1925078388, 2162078206, 2614888103, 3248222580, 3835390401, 4022224774,
   264347078, 604807628, 770255983, 1249150122, 1555081692, 1996064986,
   2554220882, 2821834349, 2952996808, 3210313671, 3336571891, 3584528711,
   113926993, 338241895, 666307205, 773529912, 1294757372, 1396182291,
   1695183700, 1986661051, 2177026350, 2456956037, 2730485921, 2820302411,
   3259730800, 3345764771, 3516065817, 3600352804, 4094571909, 275423344,
   430227734, 506948616, 659060556, 883997877, 958139571, 1322822218,
   1537002063, 1747873779, 1955562222, 2024104815, 2227730452, 2361852424,
   2428436474, 2756734187, 3204031479, 3329325298]

/-- Message padding: append 0x80, zeros, and the 64-bit big-endian bit
length, to a multiple of 64 bytes. -/
def sha256Pad (msg : List Nat) : List Nat :=
  let len := msg.length
  let padZeros := (119 - len % 64) % 64
  let bitLen := 8 * len
  msg ++ [0x80] ++ List.replicate padZeros 0 ++
    [m32 (bitLen >>> 56) % 256, (bitLen >>> 48) % 256, (bitLen >>> 40) % 256,
     (bitLen >>> 32) % 256, (bitLen >>> 24) % 256, (bitLen >>> 16) % 256,
     (bitLen >>> 8) % 256, bitLen % 256]

/-- Split the padded message into 64-byte chunks. -/
def sha256Chunks (l : List Nat) : List (List Nat) :=
  if l.isEmpty then []
  else l.take 64 :: sha256Chunks (l.drop 64)
termination_by l.length
decreasing_by
  simp only [List.length_drop]
  rename_i h
  have hne : l ≠ [] := by simpa [List.isEmpty_iff] using h
  have hp : 0 < l.length := List.length_pos.mpr hne
  omega

/-- The 64-word message schedule of one chunk. -/
def sha256Schedule (chunk : List Nat) : List Nat :=
  let w16 := (List.range 16).map fun i =>
    (chunk.getD (4 * i) 0) <<< 24 ||| (chunk.getD (4 * i + 1) 0) <<< 16 |||
    (chunk.getD (4 * i + 2) 0) <<< 8 ||| chunk.getD (4 * i + 3) 0
  (List.range 48).foldl (fun w _ =>
    let i := w.length
    let w15 := w.getD (i - 15) 0
    let w2 := w.getD (i - 2) 0
    let s0 := (rotr w15 7) ^^^ (rotr w15 18) ^^^ (w15 >>> 3)
    let s1 := (rotr w2 17) ^^^ (rotr w2 19) ^^^ (w2 >>> 10)
    w ++ [m32 (w.getD (i - 16) 0 + s0 + w.getD (i - 7) 0 + s1)]) w16

/-- One round of the compression function. -/
def sha256Round (st : H8) (kw : Nat × Nat) : H8 :=
  let s1 := (rotr st.e 6) ^^^ (rotr st.e 11) ^^^ (rotr st.e 25)
  let ch := (st.e &&& st.f) ^^^ ((4294967295 - st.e) &&& st.g)
  let t1 := m32 (st.h + s1 + ch + kw.1 + kw.2)
  let s0 := (rotr st.a 2) ^^^ (rotr st.a 13) ^^^ (rotr st.a 22)
  let mj := (st.a &&& st.b) ^^^ (st.a &&& st.c) ^^^ (st.b &&& st.c)
  let t2 := m32 (s0 + mj)
  ⟨m32 (t1 + t2), st.a, st.b, st.c, m32 (st.d + t1), st.e, st.f, st.g⟩

/-- Process one 64-byte chunk. -/
def sha256Chunk (st : H8) (chunk : List Nat) : H8 :=
  let w := sha256Schedule chunk
  let r := (sha256K.zip w).foldl sha256Round st
  ⟨m32 (st.a + r.a), m32 (st.b + r.b), m32 (st.c + r.c), m32 (st.d + r.d),
   m32 (st.e + r.e), m32 (st.f + r.f), m32 (st.g + r.g), m32 (st.h + r.h)⟩

/-- A 32-bit word as four big-endian bytes. -/
def wordBytes (w : Nat) : List Nat :=
  [w >>> 24 % 256, w >>> 16 % 256, w >>> 8 % 256, w % 256]

/-- SHA-256 digest (32 bytes) of a byte sequence. -/
def sha256 (msg : List Nat) : List Nat :=
  let st := (sha256Chunks (sha256Pad msg)).foldl sha256Chunk sha256Init
  wordBytes st.a ++ wordBytes st.b ++ wordBytes st.c ++ wordBytes st.d ++
  wordBytes st.e ++ wordBytes st.f ++ wordBytes st.g ++ wordBytes st.h

/-- The lowercase hexadecimal alphabet of hexdigest. -/
def hexAlphabet : List Char :=
  ((List.range 10).map fun k => Char.ofNat (48 + k))
    ++ ((List.range 6).map fun k => Char.ofNat (97 + k))

/-- Lowercase hex digit. -/
def hexDigitLower (n : Nat) : Char := hexAlphabet.getD n '0'

/-- One byte as two lowercase hex characters. -/
def byteHex (b : Nat) : List Char := [hexDigitLower (b / 16 % 16), hexDigitLower (b % 16)]

/-- hash_text (deduplication.py lines 99-109): SHA-256 hexdigest of the
UTF-8 encoding. -/
def hash_text (text : String) : String :=
  String.mk ((sha256 (utf8Encode text.data)).flatMap byteHex)

/-- generate_url_hash (deduplication.py lines 112-123). -/
def generate_url_hash (url : String) : String := hash_text (normalize_url url)

/-- The raw `&`-separated fields of a URL's query component. -/
def queryFields (u : String) : List (List Char) :=
  splitOnCharAux '&' ((urlparse (pyStrip u)).query).data []

/-- Two URLs differing only in the order of their query parameters: all
other urlparse components equal, and the raw query fields of one are a
permutation of the other's. -/
def queryOrderVariant (u v : String) : Prop :=
  (urlparse (pyStrip u)).scheme = (urlparse (pyStrip v)).scheme ∧
  (urlparse (pyStrip u)).netloc = (urlparse (pyStrip v)).netloc ∧
  (urlparse (pyStrip u)).path = (urlparse (pyStrip v)).path ∧
  (urlparse (pyStrip u)).params = (urlparse (pyStrip v)).params ∧
  (urlparse (pyStrip u)).fragment = (urlparse (pyStrip v)).fragment ∧
  (queryFields u).Perm (queryFields v)

end Dedup

/-! ## Concrete instances used by the claim theorems below -/

/-- The notifier state of the C9 counterexample: a full queue of 100
pending messages "0", "1", ..., "99" (oldest first). -/
def c9state : Notifier.State :=
  ⟨true, (List.range 100).map toString, [], 0, 0, 0⟩

/-- First capture of the C3 counterexample. -/
def c3itemA : ItemStore.NewItem :=
  ⟨"hashu", "contenido primera captura", "c1", "Titulo A", "", "", "", "", 0, [], [], 100⟩

/-- Second capture of the same normalized URL with refreshed content. -/
def c3itemB : ItemStore.NewItem :=
  ⟨"hashu", "contenido segunda captura", "c2", "Titulo B", "", "", "", "", 0, [], [], 200⟩

/-- The table after the first lagaceta insert. -/
def c3db1 : List ItemStore.Row := (ItemStore.insert_scraping_item [] c3itemA 100).1

/-- The trivial similarity function used to instantiate C2 at concrete
inputs (the duplicate check is not reached there). -/
def c2sim : String → String → ℚ := fun _ _ => 0

/-- A quality-perfect item whose enrichment validity flag is literally
true. -/
def c2goodTrue : AutoPrepare.Item :=
  ⟨1, some (String.mk (List.replicate 20 'a')),
   some (String.mk (List.replicate 50 'b')), some "Ciencia",
   ⟨some (String.mk (List.replicate 20 'c')),
    some (String.mk (List.replicate 50 'd')),
    some (String.mk (List.replicate 100 'e')), some true, none⟩,
   some (String.mk (List.replicate 100 'f'))⟩

/-- The same item with the validity flag absent. -/
def c2goodNone : AutoPrepare.Item :=
  ⟨2, some (String.mk (List.replicate 20 'a')),
   some (String.mk (List.replicate 50 'b')), some "Ciencia",
   ⟨some (String.mk (List.replicate 20 'c')),
    some (String.mk (List.replicate 50 'd')),
    some (String.mk (List.replicate 100 'e')), none, none⟩,
   some (String.mk (List.replicate 100 'f'))⟩

/-- A similarity function that is always 1 (strictly above the threshold). -/
def c4simOne : String → String → ℚ := fun _ _ => mkRat 1 1

/-- A similarity function exactly equal to the 0.6 threshold. -/
def c4simEq : String → String → ℚ := fun _ _ => mkRat 3 5

/-- A quality-passing item for the C4 instances. -/
def c4item : AutoPrepare.Item :=
  ⟨3, some (String.mk (List.replicate 20 'a')),
   some (String.mk (List.replicate 50 'b')), some "Ciencia",
   ⟨some (String.mk (List.replicate 20 'c')),
    some (String.mk (List.replicate 50 'd')),
    some (String.mk (List.replicate 100 'e')), none, none⟩,
   some (String.mk (List.replicate 100 'f'))⟩

/-- A published publication to match against. -/
def c4pub : AutoPrepare.Publication := ⟨7, "Titular publicado", "published"⟩

/-- The item of the C8 counterexample: no enriched category (raw category
present), no enriched tags (raw tags present), and one image URL. -/
def c8item : Publish.PubItem :=
  ⟨5, some "Titulo original de la nota", none, none, none, none,
   some "Política", none, some ["cultura"], none,
   ⟨none, none, none, none, none⟩, some ["https://img.example/a.jpg"]⟩

/-- Shorthand for a curator item with category and source_media present. -/
def mkCur (id : Nat) (t c s : String) (d : Nat) : Curator.CurItem :=
  ⟨id, t, some c, some s, none, d⟩

/-- The 13-item input of the C1 counterexample.  Items 1 and 2 have titles
with token-set similarity exactly 3/5 (≥ 0.6), so the dedup step clusters
them and keeps item 1, removing category p2 entirely; the newest item of
each of p1, p3, p4, p5 comes from source S, so the seeding pass picks S
four times; eight further items fill the selection to the target 12 within
the caps, so the caps are never relaxed. -/
def c1items : List Curator.CurItem :=
  [mkCur 1 "alpha bravo charlie delta" "p1" "S" 100,
   mkCur 2 "alpha bravo charlie echo" "p2" "X" 90,
   mkCur 3 "foxtrot golf" "p3" "S" 99,
   mkCur 4 "hotel india" "p4" "S" 98,
   mkCur 5 "julia kilo" "p5" "S" 97,
   mkCur 6 "lima mike" "p1" "T" 80,
   mkCur 7 "november oscar" "p1" "U" 79,
   mkCur 8 "papa quebec" "p3" "T" 78,
   mkCur 9 "romeo sierra" "p3" "U" 77,
   mkCur 10 "tango uniform" "p4" "T" 76,
   mkCur 11 "victor whiskey" "p4" "V" 75,
   mkCur 12 "xray yankee" "p5" "U" 74,
   mkCur 13 "zulu amber" "p5" "V" 73]

/-- A small 4-category input for the C1 witness (all titles dissimilar). -/
def c1witems : List Curator.CurItem :=
  [mkCur 1 "alpha bravo charlie" "c1" "s1" 4,
   mkCur 2 "delta echo foxtrot" "c2" "s2" 3,
   mkCur 3 "golf hotel india" "c3" "s3" 2,
   mkCur 4 "julia kilo lima" "c4" "s4" 1]

/-- The two-item input of the C10 counterexample: two input categories but
similar titles (similarity 3/5), so the survivors span one category. -/
def c10items : List Curator.CurItem :=
  [mkCur 1 "alpha bravo charlie delta" "c1" "s" 10,
   mkCur 2 "alpha bravo charlie echo" "c2" "s" 5]

/-- A two-item, two-category input with dissimilar titles for the C10
witness. -/
def c10witems : List Curator.CurItem :=
  [mkCur 1 "primera palabra unica" "c1" "s" 10,
   mkCur 2 "segunda cosa distinta" "c2" "s" 5]

/-! ## General helper lemmas -/

theorem length_dropWhile_le (p : α → Bool) (l : List α) :
    (l.dropWhile p).length ≤ l.length := by
  induction l with
  | nil => simp [List.dropWhile]
  | cons a t ih =>
    by_cases h : p a
    · simpa [List.dropWhile, h] using Nat.le_succ_of_le ih
    · simp [List.dropWhile, h]

theorem pyStrip_length_le (s : String) : (pyStrip s).length ≤ s.length := by
  show (pyStripChars s.data).length ≤ s.data.length
  unfold pyStripChars
  calc (((s.data.dropWhile Char.isWhitespace).reverse.dropWhile
          Char.isWhitespace).reverse).length
      = ((s.data.dropWhile Char.isWhitespace).reverse.dropWhile
          Char.isWhitespace).length := List.length_reverse _
    _ ≤ (s.data.dropWhile Char.isWhitespace).reverse.length :=
        length_dropWhile_le _ _
    _ = (s.data.dropWhile Char.isWhitespace).length := List.length_reverse _
    _ ≤ s.data.length := length_dropWhile_le _ _

theorem insertS_perm (le : α → α → Bool) (a : α) (l : List α) :
    (insertS le a l).Perm (a :: l) := by
  induction l with
  | nil => exact List.Perm.refl _
  | cons b t ih =>
    by_cases h : le a b
    · simp [insertS, h]
    · simp only [insertS, h, if_neg]
      exact (ih.cons b).trans (List.Perm.swap a b t)

theorem pySort_perm (le : α → α → Bool) (l : List α) : (pySort le l).Perm l := by
  induction l with
  | nil => exact List.Perm.refl _
  | cons a t ih => exact (insertS_perm le a (pySort le t)).trans (ih.cons a)

theorem mem_pySort {le : α → α → Bool} {l : List α} {a : α} :
    a ∈ pySort le l ↔ a ∈ l :=
  (pySort_perm le l).mem_iff

theorem mem_of_mem_pySort {le : α → α → Bool} {l : List α} {a : α}
    (h : a ∈ pySort le l) : a ∈ l :=
  mem_pySort.mp h

/-! ## C9 — notifier queue behavior -/

/-- Claim C9 (amended): with the notifier enabled, a high-priority message
is sent immediately and the queue is untouched; a normal-priority message
submitted while the bounded queue (capacity 100) is full is itself dropped,
leaving the queue unchanged (only the dropped counter moves); a
normal-priority message submitted with room available is appended.
send_notification is a total function (never raises) and never waits on
the queue. -/
theorem claim_C9 (st : Notifier.State) (msg : String) (hen : st.enabled = true) :
    (Notifier.send_notification st msg "high").queue = st.queue ∧
    (Notifier.send_notification st msg "high").sent_immediately
      = st.sent_immediately ++ [msg] ∧
    (Notifier.queueMaxsize ≤ st.queue.length →
      Notifier.send_notification st msg "normal"
        = { st with dropped := st.dropped + 1 }) ∧
    (st.queue.length < Notifier.queueMaxsize →
      (Notifier.send_notification st msg "normal").queue = st.queue ++ [msg]) := by
  refine ⟨?_, ?_, fun hfull => ?_, fun hroom => ?_⟩
  · simp [Notifier.send_notification, hen]
  · simp [Notifier.send_notification, hen]
  · simp [Notifier.send_notification, hen, hfull]
  · have hnf : ¬ (Notifier.queueMaxsize ≤ st.queue.length) := by omega
    simp [Notifier.send_notification, hen, hnf]

/-- Witness for C9 at a concrete state: an enabled notifier with an empty
queue accepts a normal-priority message at the end of the queue. -/
theorem claim_C9_witness :
    ((⟨true, [], [], 0, 0, 0⟩ : Notifier.State).enabled = true) ∧
    (Notifier.send_notification ⟨true, [], [], 0, 0, 0⟩ "mensaje" "normal").queue
      = [] ++ ["mensaje"] :=
  ⟨rfl, (claim_C9 ⟨true, [], [], 0, 0, 0⟩ "mensaje" rfl).2.2.2 (by decide)⟩


/-- Counterexample to C9 as stated: on a full queue the code drops the NEW
message, not the oldest one — the queue is left unchanged, the oldest
pending message "0" is still queued, and the submitted message is not. -/
theorem claim_C9_counterexample :
    c9state.queue.length = Notifier.queueMaxsize ∧
    Notifier.send_notification c9state "nuevo" "normal"
      = { c9state with dropped := 1 } ∧
    c9state.queue.headD "" = "0" ∧
    ¬ "nuevo" ∈ (Notifier.send_notification c9state "nuevo" "normal").queue ∧
    "0" ∈ (Notifier.send_notification c9state "nuevo" "normal").queue := by
  decide

/-! ## C6 — source error tracking -/

/-- Claim C6 (amended): a successful run resets consecutive_errors to zero
and a failed run increments it; after the update, a source whose counter
has reached max_consecutive_errors is inactive; and a scheduled cycle over
all active sources (selected_source_ids unset) never includes an inactive
source.  (A scheduled cycle with an explicit source-id allowlist filters by
id only and can still include a deactivated source — see the
counterexample.) -/
theorem claim_C6 (s : ScraperService.Source) (status message : String) (cnt : Nat) :
    ((status = "success" →
      (ScraperService.update_source_stats s status message cnt).consecutive_errors = 0) ∧
     (status ≠ "success" →
      (ScraperService.update_source_stats s status message cnt).consecutive_errors
        = s.consecutive_errors + 1)) ∧
    ((ScraperService.update_source_stats s status message cnt).max_consecutive_errors ≤
      (ScraperService.update_source_stats s status message cnt).consecutive_errors →
      (ScraperService.update_source_stats s status message cnt).is_active = false) ∧
    (∀ sources : List ScraperService.Source,
      ∀ t ∈ ScraperService.scheduled_cycle_sources sources none, t.is_active = true) := by
  have hdis_consec : ∀ u : ScraperService.Source,
      (ScraperService.auto_disable u).consecutive_errors = u.consecutive_errors := by
    intro u
    unfold ScraperService.auto_disable
    split <;> rfl
  have hdis_max : ∀ u : ScraperService.Source,
      (ScraperService.auto_disable u).max_consecutive_errors
        = u.max_consecutive_errors := by
    intro u
    unfold ScraperService.auto_disable
    split <;> rfl
  refine ⟨⟨fun hs => ?_, fun hs => ?_⟩, fun hmax => ?_, fun sources t ht => ?_⟩
  · rw [ScraperService.update_source_stats, hdis_consec,
        ScraperService.stats_update, if_pos hs]
  · rw [ScraperService.update_source_stats, hdis_consec,
        ScraperService.stats_update, if_neg hs]
  · rw [ScraperService.update_source_stats] at hmax ⊢
    rw [hdis_consec, hdis_max] at hmax
    unfold ScraperService.auto_disable
    rw [if_pos hmax]
  · have ht2 := mem_of_mem_pySort
      (by simpa only [ScraperService.scheduled_cycle_sources,
                 ScraperService.get_active_sources] using ht)
    exact (List.mem_filter.mp ht2).2

/-- Witness for C6 at a concrete source: a failing run takes a source with
2 consecutive errors and a maximum of 3 to 3 errors and deactivates it. -/
theorem claim_C6_witness :
    ("error" ≠ "success") ∧
    (ScraperService.update_source_stats
      ⟨1, "fuente", true, 2, 3, "", "", 0, 0, 0⟩ "error" "timeout" 0).consecutive_errors
      = 2 + 1 ∧
    (ScraperService.update_source_stats
      ⟨1, "fuente", true, 2, 3, "", "", 0, 0, 0⟩ "error" "timeout" 0).is_active = false :=
  ⟨by decide,
   ((claim_C6 ⟨1, "fuente", true, 2, 3, "", "", 0, 0, 0⟩ "error" "timeout" 0).1.2
     (by decide)),
   ((claim_C6 ⟨1, "fuente", true, 2, 3, "", "", 0, 0, 0⟩ "error" "timeout" 0).2.1
     (by decide))⟩

/-- Counterexample to C6 as stated: after its third consecutive failure the
source is deactivated, yet a *scheduled* cycle whose live configuration
carries the explicit allowlist [1] (`selected_source_ids`) still includes
it, because the id branch of get_active_sources does not filter on
is_active. -/
theorem claim_C6_counterexample :
    (ScraperService.update_source_stats
       ⟨1, "fuente", true, 2, 3, "", "", 0, 0, 0⟩ "error" "timeout" 0).is_active = false ∧
    (ScraperService.update_source_stats
       ⟨1, "fuente", true, 2, 3, "", "", 0, 0, 0⟩ "error" "timeout" 0).consecutive_errors
      = 3 ∧
    (ScraperService.update_source_stats
       ⟨1, "fuente", true, 2, 3, "", "", 0, 0, 0⟩ "error" "timeout" 0) ∈
      ScraperService.scheduled_cycle_sources
        [ScraperService.update_source_stats
          ⟨1, "fuente", true, 2, 3, "", "", 0, 0, 0⟩ "error" "timeout" 0]
        (some [1]) := by
  decide

/-! ## C5 — auto-publish candidate query -/

/-- Claim C5 (confirmed): every pair returned by the auto-publish candidate
query satisfies all of: the item is ready_to_publish, its joined source has
auto_publish enabled, the item has been in its status for at least the
source's delay, it has no publication link, and the source is the item's
owner (join condition).  Consequently an item of a disabled source, or one
younger than its source's delay, is never selected for auto-publication. -/
theorem claim_C5 (items : List AutoPublish.Item) (sources : List AutoPublish.Source)
    (now : Int) (lim : Nat) (p : AutoPublish.Item × AutoPublish.Source)
    (hp : p ∈ AutoPublish.get_items_to_publish items sources now lim) :
    p.1.status = "ready_to_publish" ∧ p.2.auto_publish = true ∧
    p.1.status_updated_at ≤ now - p.2.auto_publish_delay_minutes ∧
    p.1.publication_id = none ∧ p.2.slug = p.1.source_media := by
  unfold AutoPublish.get_items_to_publish at hp
  have hp2 := mem_of_mem_pySort (List.mem_of_mem_take hp)
  have hcond := (List.mem_filter.mp hp2).2
  have hjoin := (List.mem_filter.mp hp2).1
  simp only [Bool.and_eq_true, beq_iff_eq, decide_eq_true_eq] at hcond
  obtain ⟨si, _, hmap⟩ := List.mem_flatMap.mp hjoin
  obtain ⟨ss, hss, hpair⟩ := List.mem_map.mp hmap
  have hslug : p.2.slug = p.1.source_media := by
    have := (List.mem_filter.mp hss).2
    rw [← hpair]
    simpa using this
  exact ⟨hcond.1.1.1, hcond.1.1.2, hcond.1.2, hcond.2, hslug⟩

/-- Witness for C5: a concrete ready item of an auto-publish source, 15
minutes old with a 15-minute delay, is selected and satisfies every
condition of the query. -/
theorem claim_C5_witness :
    ((⟨1, "medio", "ready_to_publish", 0, none⟩,
      ⟨2, "medio", "Fuente", true, 15⟩) ∈
        AutoPublish.get_items_to_publish
          [⟨1, "medio", "ready_to_publish", 0, none⟩]
          [⟨2, "medio", "Fuente", true, 15⟩] 15 50) ∧
    (⟨1, "medio", "ready_to_publish", 0, none⟩ : AutoPublish.Item).status
      = "ready_to_publish" ∧
    (⟨2, "medio", "Fuente", true, 15⟩ : AutoPublish.Source).auto_publish = true :=
  ⟨by decide,
   (claim_C5 [⟨1, "medio", "ready_to_publish", 0, none⟩]
     [⟨2, "medio", "Fuente", true, 15⟩] 15 50
     (⟨1, "medio", "ready_to_publish", 0, none⟩, ⟨2, "medio", "Fuente", true, 15⟩)
     (by decide)).1,
   (claim_C5 [⟨1, "medio", "ready_to_publish", 0, none⟩]
     [⟨2, "medio", "Fuente", true, 15⟩] 15 50
     (⟨1, "medio", "ready_to_publish", 0, none⟩, ⟨2, "medio", "Fuente", true, 15⟩)
     (by decide)).2.1⟩

/-! ## C3 — insert/dedupe primitives -/

/-- Claim C3 (amended): on a table whose url_hash column is unique, a
second insert with the same fingerprint never produces a second row: the
API upsert keeps the row count, refreshes the content fields and preserves
the original scraped_at; the lagaceta insert (ON CONFLICT DO NOTHING)
reports no insert and leaves the table entirely unchanged — it does not
refresh content. -/
theorem claim_C3 (db : List ItemStore.Row) (it : ItemStore.NewItem) (now : Int)
    (r : ItemStore.Row)
    (hnd : (db.map ItemStore.Row.url_hash).Nodup)
    (hr : r ∈ db) (hh : r.url_hash = it.url_hash) :
    ((ItemStore.upsert_scraping_item db it now).map ItemStore.Row.url_hash).Nodup ∧
    (ItemStore.upsert_scraping_item db it now).length = db.length ∧
    (∀ r2 ∈ ItemStore.upsert_scraping_item db it now, r2.url_hash = it.url_hash →
      r2.scraped_at = r.scraped_at ∧ r2.content = it.content ∧
      r2.content_hash = it.content_hash ∧ r2.title = it.title) ∧
    ItemStore.insert_scraping_item db it now = (db, false) := by
  have hany : (db.any fun r0 => r0.url_hash == it.url_hash) = true :=
    List.any_eq_true.mpr ⟨r, hr, by simp [hh]⟩
  have hup : ItemStore.upsert_scraping_item db it now
      = db.map fun r0 =>
          if r0.url_hash == it.url_hash then r0.refresh it now else r0 := by
    unfold ItemStore.upsert_scraping_item
    rw [if_pos hany]
  refine ⟨?_, ?_, ?_, ?_⟩
  · rw [hup, List.map_map]
    have hcomp : (ItemStore.Row.url_hash ∘ fun r0 =>
        if r0.url_hash == it.url_hash then r0.refresh it now else r0)
        = ItemStore.Row.url_hash := by
      funext r0
      by_cases h : r0.url_hash = it.url_hash
      · simp [Function.comp, h, ItemStore.Row.refresh]
      · simp [Function.comp, h]
    rw [hcomp]
    exact hnd
  · rw [hup, List.length_map]
  · intro r2 hr2 hh2
    rw [hup] at hr2
    obtain ⟨r0, hr0, heq⟩ := List.mem_map.mp hr2
    by_cases h : r0.url_hash = it.url_hash
    · have heq2 : r2 = r0.refresh it now := by
        rw [← heq]
        simp [h]
      have hr0r : r0 = r := List.inj_on_of_nodup_map hnd hr0 hr (by rw [h, hh])
      rw [heq2, hr0r]
      exact ⟨rfl, rfl, rfl, rfl⟩
    · have heq2 : r2 = r0 := by
        rw [← heq]
        simp [h]
      rw [heq2] at hh2
      exact absurd hh2 h
  · unfold ItemStore.insert_scraping_item
    rw [if_pos hany]

/-- Witness for C3: a concrete one-row table and a matching payload; the
upsert keeps one row and the lagaceta insert is a no-op. -/
theorem claim_C3_witness :
    (([(⟨"h", "viejo", "ch", "t", "", "", "", "", 0, [], [], 1, 1⟩ : ItemStore.Row)].map
        ItemStore.Row.url_hash).Nodup) ∧
    (ItemStore.upsert_scraping_item
      [⟨"h", "viejo", "ch", "t", "", "", "", "", 0, [], [], 1, 1⟩]
      ⟨"h", "nuevo", "ch2", "t2", "", "", "", "", 0, [], [], 5⟩ 7).length = 1 ∧
    ItemStore.insert_scraping_item
      [⟨"h", "viejo", "ch", "t", "", "", "", "", 0, [], [], 1, 1⟩]
      ⟨"h", "nuevo", "ch2", "t2", "", "", "", "", 0, [], [], 5⟩ 7
      = ([⟨"h", "viejo", "ch", "t", "", "", "", "", 0, [], [], 1, 1⟩], false) :=
  ⟨by decide,
   (claim_C3 [⟨"h", "viejo", "ch", "t", "", "", "", "", 0, [], [], 1, 1⟩]
     ⟨"h", "nuevo", "ch2", "t2", "", "", "", "", 0, [], [], 5⟩ 7
     ⟨"h", "viejo", "ch", "t", "", "", "", "", 0, [], [], 1, 1⟩
     (by decide) (by decide) (by decide)).2.1,
   (claim_C3 [⟨"h", "viejo", "ch", "t", "", "", "", "", 0, [], [], 1, 1⟩]
     ⟨"h", "nuevo", "ch2", "t2", "", "", "", "", 0, [], [], 5⟩ 7
     ⟨"h", "viejo", "ch", "t", "", "", "", "", 0, [], [], 1, 1⟩
     (by decide) (by decide) (by decide)).2.2.2⟩




/-- Counterexample to C3 as stated: under the lagaceta insert primitive
(ON CONFLICT DO NOTHING) the second insert of the same url fingerprint
does NOT update the content fields — the single row keeps the first
capture's content, content_hash and title. -/
theorem claim_C3_counterexample :
    (ItemStore.insert_scraping_item c3db1 c3itemB 200).2 = false ∧
    (ItemStore.insert_scraping_item c3db1 c3itemB 200).1.length = 1 ∧
    ∀ r2 ∈ (ItemStore.insert_scraping_item c3db1 c3itemB 200).1,
      r2.content = "contenido primera captura" ∧ r2.content ≠ c3itemB.content ∧
      r2.title ≠ c3itemB.title ∧ r2.scraped_at = 100 := by
  decide

/-! ## C2 — quality gate never promotes a failing item -/

/-- An item violating any of the claim's quality criteria fails
validate_quality: each claimed criterion implies the corresponding source
check (raw length bounds imply the stripped-length bounds the code tests). -/
theorem claim_fail_validate_false (item : AutoPrepare.Item)
    (h : AutoPrepare.claimQualityFailure item) :
    (AutoPrepare.validate_quality item).1 = false := by
  unfold AutoPrepare.validate_quality
  by_cases h1 : (pyStrip (pyOr item.ai_title "")).length < AutoPrepare.MIN_TITLE_LENGTH
  · simp only [if_pos h1]
  by_cases h2 : (pyStrip (pyOr item.ai_summary "")).length < AutoPrepare.MIN_SUMMARY_LENGTH
  · simp only [if_neg h1, if_pos h2]
  by_cases h3 : (AutoPrepare.VALID_CATEGORIES.contains (pyOr item.ai_category "")) = false
  · simp only [if_neg h1, if_neg h2, if_pos h3]
  by_cases h4 : (pyOr item.ai_metadata.sin_vueltas "" = ""
      || (pyOr item.ai_metadata.sin_vueltas "").length < 20) = true
  · simp only [if_neg h1, if_neg h2, if_neg h3, if_pos h4]
  by_cases h5 : (pyOr item.ai_metadata.lo_central "" = ""
      || (pyOr item.ai_metadata.lo_central "").length < 50) = true
  · simp only [if_neg h1, if_neg h2, if_neg h3, if_neg h4, if_pos h5]
  by_cases h6 : (pyOr item.ai_metadata.en_profundidad "" = ""
      || (pyOr item.ai_metadata.en_profundidad "").length
          < AutoPrepare.MIN_CONTENT_LENGTH) = true
  · simp only [if_neg h1, if_neg h2, if_neg h3, if_neg h4, if_neg h5, if_pos h6]
  by_cases h7 : (pyStrip (pyOr item.content "")).length < AutoPrepare.MIN_CONTENT_LENGTH
  · simp only [if_neg h1, if_neg h2, if_neg h3, if_neg h4, if_neg h5, if_neg h6, if_pos h7]
  by_cases h8 : item.ai_metadata.is_valid = some false
  · simp only [if_neg h1, if_neg h2, if_neg h3, if_neg h4, if_neg h5, if_neg h6,
      if_neg h7, if_pos h8]
  exfalso
  rcases h with ht | hs | hc | hsv | hlc | hep | hco | hv
  · exact h1 ((pyStrip_length_le _).trans_lt ht)
  · exact h2 ((pyStrip_length_le _).trans_lt hs)
  · exact h3 (by simpa using hc)
  · refine absurd ?_ h4
    simp only [Bool.or_eq_true, decide_eq_true_eq]
    exact Or.inr hsv
  · refine absurd ?_ h5
    simp only [Bool.or_eq_true, decide_eq_true_eq]
    exact Or.inr hlc
  · refine absurd ?_ h6
    simp only [Bool.or_eq_true, decide_eq_true_eq]
    exact Or.inr hep
  · exact h7 ((pyStrip_length_le _).trans_lt hco)
  · exact h8 hv

/-- Claim C2 (amended: the validity-flag criterion is the flag being
explicitly false): an ai_completed item failing any quality criterion is
never promoted — process_item records the quality failure, keeps the item
in status ai_completed (neither ready_to_publish nor error) and writes the
diagnostic status message. -/
theorem claim_C2 (sim : String → String → ℚ)
    (pubs : List AutoPrepare.Publication) (others : List AutoPrepare.OtherItem)
    (item : AutoPrepare.Item) (h : AutoPrepare.claimQualityFailure item) :
    (AutoPrepare.process_item sim pubs others item).status = "ai_completed" ∧
    (AutoPrepare.process_item sim pubs others item).status ≠ "ready_to_publish" ∧
    (AutoPrepare.process_item sim pubs others item).status ≠ "error" ∧
    (AutoPrepare.process_item sim pubs others item).action = "quality_failed" ∧
    (AutoPrepare.process_item sim pubs others item).status_message
      = "Auto-prepare: calidad insuficiente - "
        ++ (AutoPrepare.validate_quality item).2 := by
  have hv := claim_fail_validate_false item h
  unfold AutoPrepare.process_item
  simp only []
  rw [hv]
  simp only [eq_self_iff_true, if_true]
  exact ⟨trivial, by decide, by decide, trivial, trivial⟩


/-- Witness for C2: an item with a 5-character enriched title stays in
ai_completed. -/
theorem claim_C2_witness :
    AutoPrepare.claimQualityFailure
      ⟨1, some "corto", none, none, ⟨none, none, none, none, none⟩, none⟩ ∧
    (AutoPrepare.process_item c2sim [] []
      ⟨1, some "corto", none, none, ⟨none, none, none, none, none⟩, none⟩).status
      = "ai_completed" :=
  ⟨by decide,
   (claim_C2 c2sim [] []
     ⟨1, some "corto", none, none, ⟨none, none, none, none, none⟩, none⟩
     (by decide)).1⟩



set_option maxRecDepth 4000 in
/-- Counterexample to C2 as stated: the claim lists "the enrichment
validity flag being true" among the failing criteria, but an item whose
flag is literally true — and likewise one whose flag is absent — is
promoted to ready_to_publish; the code rejects only an explicit false. -/
theorem claim_C2_counterexample :
    c2goodTrue.ai_metadata.is_valid = some true ∧
    (AutoPrepare.process_item c2sim [] [] c2goodTrue).status = "ready_to_publish" ∧
    c2goodNone.ai_metadata.is_valid ≠ some true ∧
    c2goodNone.ai_metadata.is_valid ≠ some false ∧
    (AutoPrepare.process_item c2sim [] [] c2goodNone).status = "ready_to_publish" := by
  decide

/-! ## C4 — the duplicate check threshold -/

theorem argmaxBy_eq_none {f : α → ℚ} {l : List α} :
    AutoPrepare.argmaxBy f l = none ↔ l = [] := by
  cases l <;> simp [AutoPrepare.argmaxBy]

theorem foldl_choice_mem (f : α → ℚ) (l : List α) (acc : α) :
    l.foldl (fun b y => if f b < f y then y else b) acc = acc ∨
    l.foldl (fun b y => if f b < f y then y else b) acc ∈ l := by
  induction l generalizing acc with
  | nil => exact Or.inl rfl
  | cons y t ih =>
    simp only [List.foldl_cons]
    rcases ih (if f acc < f y then y else acc) with h | h
    · rw [h]
      by_cases hy : f acc < f y
      · rw [if_pos hy]
        exact Or.inr (List.mem_cons_self y t)
      · rw [if_neg hy]
        exact Or.inl rfl
    · exact Or.inr (List.mem_cons_of_mem y h)

theorem argmaxBy_mem {f : α → ℚ} {l : List α} {x : α}
    (h : AutoPrepare.argmaxBy f l = some x) : x ∈ l := by
  cases l with
  | nil => simp [AutoPrepare.argmaxBy] at h
  | cons a t =>
    simp only [AutoPrepare.argmaxBy, Option.some.injEq] at h
    rcases foldl_choice_mem f t a with h2 | h2
    · rw [h2] at h
      rw [← h]
      exact List.mem_cons_self a t
    · rw [← h]
      exact List.mem_cons_of_mem a h2

/-- The duplicate check returns a match exactly when some published
publication, or some other queued/published item, is strictly above the
similarity threshold. -/
theorem check_dup_isSome_iff (sim : String → String → ℚ)
    (pubs : List AutoPrepare.Publication) (others : List AutoPrepare.OtherItem)
    (item : AutoPrepare.Item) :
    (AutoPrepare.check_duplicate_by_title sim pubs others item.ai_title item.id).isSome
      = true ↔ AutoPrepare.hasStrictMatch sim pubs others item := by
  unfold AutoPrepare.check_duplicate_by_title AutoPrepare.hasStrictMatch
  by_cases hT : pyTruthy item.ai_title = false
  · simp [hT, Bool.eq_false_iff.mp hT]
  · have hT2 : pyTruthy item.ai_title = true := by
      cases h : pyTruthy item.ai_title
      · exact absurd h hT
      · rfl
    rw [if_neg (by simp [hT2])]
    simp only [hT2, true_and]
    cases hpm : AutoPrepare.argmaxBy
        (fun p => sim p.title.toLower (pyOr item.ai_title "").toLower)
        (pubs.filter fun p => p.state == "published" &&
          decide (AutoPrepare.SIMILARITY_THRESHOLD
            < sim p.title.toLower (pyOr item.ai_title "").toLower)) with
    | some p =>
      simp only [Option.isSome_some, true_iff]
      have hp := argmaxBy_mem hpm
      have hp2 := List.mem_filter.mp hp
      refine Or.inl ⟨p, hp2.1, ?_⟩
      have := hp2.2
      simpa using this
    | none =>
      have hempty := argmaxBy_eq_none.mp hpm
      have hnopub : ¬ ∃ p ∈ pubs, p.state = "published" ∧
          AutoPrepare.SIMILARITY_THRESHOLD
            < sim p.title.toLower (pyOr item.ai_title "").toLower := by
        rintro ⟨p, hp, hst, hsim⟩
        have : p ∈ (pubs.filter fun p => p.state == "published" &&
            decide (AutoPrepare.SIMILARITY_THRESHOLD
              < sim p.title.toLower (pyOr item.ai_title "").toLower)) :=
          List.mem_filter.mpr ⟨hp, by simp [hst, hsim]⟩
        rw [hempty] at this
        exact List.not_mem_nil p this
      cases him : AutoPrepare.argmaxBy
          (fun o => sim (pyOr o.ai_title "").toLower (pyOr item.ai_title "").toLower)
          (others.filter fun o => (o.id != item.id) &&
            (o.status == "ready_to_publish" || o.status == "published") &&
            (o.ai_title != none) &&
            decide (AutoPrepare.SIMILARITY_THRESHOLD
              < sim (pyOr o.ai_title "").toLower (pyOr item.ai_title "").toLower)) with
      | some o =>
        simp only [Option.isSome_some, true_iff]
        have ho := argmaxBy_mem him
        have ho2 := List.mem_filter.mp ho
        refine Or.inr ⟨o, ho2.1, ?_⟩
        have := ho2.2
        simp only [Bool.and_eq_true, bne_iff_ne, ne_eq, Bool.or_eq_true,
          beq_iff_eq, decide_eq_true_eq] at this
        exact ⟨this.1.1.1, this.1.1.2, this.1.2, this.2⟩
      | none =>
        have hempty2 := argmaxBy_eq_none.mp him
        simp only [Option.isSome_none, Bool.false_eq_true, false_iff]
        rintro (hP | ⟨o, ho, hne, hst, hat, hsim⟩)
        · exact hnopub hP
        · have : o ∈ (others.filter fun o => (o.id != item.id) &&
              (o.status == "ready_to_publish" || o.status == "published") &&
              (o.ai_title != none) &&
              decide (AutoPrepare.SIMILARITY_THRESHOLD
                < sim (pyOr o.ai_title "").toLower (pyOr item.ai_title "").toLower)) := by
            refine List.mem_filter.mpr ⟨ho, ?_⟩
            simp only [Bool.and_eq_true, bne_iff_ne, ne_eq, Bool.or_eq_true,
              beq_iff_eq, decide_eq_true_eq]
            exact ⟨⟨⟨hne, hst⟩, hat⟩, hsim⟩
          rw [hempty2] at this
          exact List.not_mem_nil o this

/-- Claim C4 (amended: the comparison is strict): a quality-passing item is
marked duplicate exactly when its enriched title has similarity strictly
greater than the 0.6 threshold to a published article title or to the
enriched title of another ready_to_publish/published item; in that case
the status message records the matched title and score, and otherwise the
item is marked ready_to_publish. -/
theorem claim_C4 (sim : String → String → ℚ)
    (pubs : List AutoPrepare.Publication) (others : List AutoPrepare.OtherItem)
    (item : AutoPrepare.Item)
    (hq : (AutoPrepare.validate_quality item).1 = true) :
    ((AutoPrepare.process_item sim pubs others item).status = "duplicate"
      ↔ AutoPrepare.hasStrictMatch sim pubs others item) ∧
    (¬ AutoPrepare.hasStrictMatch sim pubs others item →
      (AutoPrepare.process_item sim pubs others item).status = "ready_to_publish") ∧
    (AutoPrepare.hasStrictMatch sim pubs others item →
      ∃ t s, (AutoPrepare.process_item sim pubs others item).status_message
        = AutoPrepare.dupMessage t s) := by
  have hiff := check_dup_isSome_iff sim pubs others item
  unfold AutoPrepare.process_item
  simp only []
  rw [hq]
  simp only [Bool.true_eq_false, if_false]
  cases hc : AutoPrepare.check_duplicate_by_title sim pubs others item.ai_title item.id with
  | some r =>
    rw [hc] at hiff
    simp only [Option.isSome_some] at hiff
    cases r with
    | mk t s =>
      exact ⟨by simpa using hiff.mp trivial, fun hn => absurd (hiff.mp trivial) hn,
        fun _ => ⟨t, s, rfl⟩⟩
  | none =>
    rw [hc] at hiff
    simp only [Option.isSome_none, Bool.false_eq_true, false_iff] at hiff
    exact ⟨by simpa using hiff, fun _ => rfl, fun hm => absurd hm hiff⟩





set_option maxRecDepth 4000 in
/-- Witness for C4: with similarity 1 against one published title, the
quality-passing item is marked duplicate. -/
theorem claim_C4_witness :
    (AutoPrepare.validate_quality c4item).1 = true ∧
    AutoPrepare.hasStrictMatch c4simOne [c4pub] [] c4item ∧
    (AutoPrepare.process_item c4simOne [c4pub] [] c4item).status = "duplicate" :=
  ⟨by decide, by decide,
   (claim_C4 c4simOne [c4pub] [] c4item (by decide)).1.mpr (by decide)⟩

set_option maxRecDepth 4000 in
/-- Counterexample to C4 as stated: at similarity exactly 0.6 (attainable
by the trigram measure, e.g. three shared trigrams out of five) the claim
requires the item to be marked duplicate, but the SQL comparison is
strict (similarity > 0.6), so the item is marked ready_to_publish. -/
theorem claim_C4_counterexample :
    AutoPrepare.SIMILARITY_THRESHOLD
      ≤ c4simEq c4pub.title.toLower (pyOr c4item.ai_title "").toLower ∧
    (AutoPrepare.validate_quality c4item).1 = true ∧
    c4pub.state = "published" ∧
    (AutoPrepare.process_item c4simEq [c4pub] [] c4item).status = "ready_to_publish" ∧
    (AutoPrepare.process_item c4simEq [c4pub] [] c4item).status ≠ "duplicate" := by
  decide

/-! ## C8 — the two publish paths -/

/-- Claim C8 (amended): the Curator's and the Auto-Publisher's
create_publication agree on error behavior (no title) and build
publication rows equal in scraping_item_id, state, title, slug (same
slug-collision handling), summary, body, the three graduated content
fields and origin_type, and both mark the item published; but the two
paths are not the same primitive — they differ in the category fallback,
the tags fallback, the item's status_message, and the media parameter
(the curator binds the json.dumps string, the auto-publisher the raw
list; see the counterexample). -/
theorem claim_C8 (slug_exists : String → Bool) (item : Publish.PubItem) :
    ((Publish.curator_create_publication slug_exists item).isSome
      ↔ (Publish.autopub_create_publication slug_exists item).isSome) ∧
    ((Publish.curator_create_publication slug_exists item).map fun r => r.1.scraping_item_id)
      = ((Publish.autopub_create_publication slug_exists item).map fun r => r.1.scraping_item_id) ∧
    ((Publish.curator_create_publication slug_exists item).map fun r => r.1.state)
      = ((Publish.autopub_create_publication slug_exists item).map fun r => r.1.state) ∧
    ((Publish.curator_create_publication slug_exists item).map fun r => r.1.title)
      = ((Publish.autopub_create_publication slug_exists item).map fun r => r.1.title) ∧
    ((Publish.curator_create_publication slug_exists item).map fun r => r.1.slug)
      = ((Publish.autopub_create_publication slug_exists item).map fun r => r.1.slug) ∧
    ((Publish.curator_create_publication slug_exists item).map fun r => r.1.summary)
      = ((Publish.autopub_create_publication slug_exists item).map fun r => r.1.summary) ∧
    ((Publish.curator_create_publication slug_exists item).map fun r => r.1.body)
      = ((Publish.autopub_create_publication slug_exists item).map fun r => r.1.body) ∧
    ((Publish.curator_create_publication slug_exists item).map fun r => r.1.content_sin_vueltas)
      = ((Publish.autopub_create_publication slug_exists item).map fun r => r.1.content_sin_vueltas) ∧
    ((Publish.curator_create_publication slug_exists item).map fun r => r.1.content_lo_central)
      = ((Publish.autopub_create_publication slug_exists item).map fun r => r.1.content_lo_central) ∧
    ((Publish.curator_create_publication slug_exists item).map fun r => r.1.content_en_profundidad)
      = ((Publish.autopub_create_publication slug_exists item).map fun r => r.1.content_en_profundidad) ∧
    ((Publish.curator_create_publication slug_exists item).map fun r => r.1.origin_type)
      = ((Publish.autopub_create_publication slug_exists item).map fun r => r.1.origin_type) ∧
    ((Publish.curator_create_publication slug_exists item).map fun r => r.2.status)
      = ((Publish.autopub_create_publication slug_exists item).map fun r => r.2.status) := by
  unfold Publish.curator_create_publication Publish.autopub_create_publication
  by_cases h : pyTruthy (pyOrOpt item.ai_title item.title) = false
  · simp [h]
  · simp [h]


/-- Counterexample to C8 as stated: on the same item the two publish paths
produce different publication rows (category fallback, tags fallback and
the media parameter differ — the curator binds the json.dumps string
where the auto-publisher binds the raw list) and different item status
messages, so they are not one shared publish primitive. -/
theorem claim_C8_counterexample :
    ((Publish.curator_create_publication (fun _ => false) c8item).map fun r => r.1.category)
      ≠ ((Publish.autopub_create_publication (fun _ => false) c8item).map fun r => r.1.category) ∧
    ((Publish.curator_create_publication (fun _ => false) c8item).map fun r => r.1.tags)
      ≠ ((Publish.autopub_create_publication (fun _ => false) c8item).map fun r => r.1.tags) ∧
    ((Publish.curator_create_publication (fun _ => false) c8item).map fun r => r.1.media)
      ≠ ((Publish.autopub_create_publication (fun _ => false) c8item).map fun r => r.1.media) ∧
    ((Publish.curator_create_publication (fun _ => false) c8item).map fun r => r.1.media)
      = some (Publish.MediaParam.jsonStr
          ("[\x7b\"type\": \"image\", \"url\": \"https://img.example/a.jpg\", "
            ++ "\"caption\": \"\", \"order\": 0\x7d]")) ∧
    ((Publish.curator_create_publication (fun _ => false) c8item).map fun r => r.2.status_message)
      ≠ ((Publish.autopub_create_publication (fun _ => false) c8item).map fun r => r.2.status_message) := by
  decide

/-! ## Curator lemmas (C1, C10) -/

namespace Curator

theorem mem_dedupFirst [DecidableEq α] {a : α} :
    ∀ {l : List α}, a ∈ dedupFirst l ↔ a ∈ l := by
  intro l
  induction l with
  | nil => simp [dedupFirst]
  | cons b t ih =>
    simp only [dedupFirst]
    constructor
    · intro h
      rcases List.mem_cons.mp h with rfl | h2
      · exact List.mem_cons_self _ _
      · exact List.mem_cons_of_mem _ (ih.mp (List.mem_filter.mp h2).1)
    · intro h
      rcases List.mem_cons.mp h with rfl | h2
      · exact List.mem_cons_self _ _
      · by_cases hab : a = b
        · exact hab ▸ List.mem_cons_self _ _
        · exact List.mem_cons_of_mem _
            (List.mem_filter.mpr ⟨ih.mpr h2, by simpa using hab⟩)

theorem nodup_dedupFirst [DecidableEq α] : ∀ l : List α, (dedupFirst l).Nodup := by
  intro l
  induction l with
  | nil => simp [dedupFirst]
  | cons b t ih =>
    refine List.Nodup.cons ?_ (ih.filter _)
    intro hb
    have := (List.mem_filter.mp hb).2
    simp at this

theorem catCount_append (sel : List CurItem) (i : CurItem) (c : String) :
    catCount (sel ++ [i]) c = catCount sel c + (if catOf i = c then 1 else 0) := by
  unfold catCount
  rw [List.filter_append, List.length_append]
  by_cases h : catOf i = c
  · simp [h]
  · simp [h]

theorem srcCount_append (sel : List CurItem) (i : CurItem) (s : String) :
    srcCount (sel ++ [i]) s = srcCount sel s + (if sourceKey i = s then 1 else 0) := by
  unfold srcCount
  rw [List.filter_append, List.length_append]
  by_cases h : sourceKey i = s
  · simp [h]
  · simp [h]

theorem countsOk_empty : CountsOk emptySel := by
  constructor <;> intro x <;> rfl

theorem countsOk_addSel {st : SelState} {ckey : String} {i : CurItem}
    (h : CountsOk st) (hkey : ckey = catOf i) : CountsOk (addSel st ckey i) := by
  constructor
  · intro c
    show bump st.catCounts ckey c = catCount (st.selected ++ [i]) c
    rw [catCount_append, bump]
    by_cases hc : c = ckey
    · subst hc
      rw [if_pos rfl, if_pos hkey.symm, h.1 c]
    · rw [if_neg hc, if_neg (fun he => hc ((hkey.trans he).symm)), Nat.add_zero, h.1 c]
  · intro s
    show bump st.srcCounts (sourceKey i) s = srcCount (st.selected ++ [i]) s
    rw [srcCount_append, bump]
    by_cases hs : s = sourceKey i
    · subst hs
      rw [if_pos rfl, if_pos rfl, h.2 (sourceKey i)]
    · rw [if_neg hs, if_neg (fun he => hs he.symm), Nat.add_zero, h.2 s]

theorem mem_categoriesOf {items : List CurItem} {c : String} :
    c ∈ categoriesOf items ↔ ∃ i ∈ items, catOf i = c := by
  unfold categoriesOf
  rw [mem_dedupFirst]
  constructor
  · intro h
    obtain ⟨i, hi, he⟩ := List.mem_map.mp h
    exact ⟨i, hi, he⟩
  · rintro ⟨i, hi, he⟩
    exact List.mem_map.mpr ⟨i, hi, he⟩

theorem pass1_byCat (items1 : List CurItem) :
    pass1 (by_category items1) = (categoriesOf items1).foldl (seedStep items1) emptySel := by
  unfold pass1 by_category
  rw [List.foldl_map]
  rfl

theorem seed_mem_mono (items1 : List CurItem) (cats : List String) (st0 : SelState)
    (x : CurItem) (hx : x ∈ st0.selected) :
    x ∈ (cats.foldl (seedStep items1) st0).selected := by
  induction cats generalizing st0 with
  | nil => exact hx
  | cons c rest ih =>
    rw [List.foldl_cons]
    apply ih
    unfold seedStep
    split
    · exact hx
    · exact List.mem_append_left _ hx

theorem seed_floor (items1 : List CurItem) (cats : List String) (st0 : SelState)
    (hne : ∀ c ∈ cats, ∃ i ∈ items1, catOf i = c) :
    ∀ c ∈ cats, ∃ x ∈ (cats.foldl (seedStep items1) st0).selected, catOf x = c := by
  induction cats generalizing st0 with
  | nil => simp
  | cons c0 rest ih =>
    intro c hc
    rw [List.foldl_cons]
    rcases List.mem_cons.mp hc with rfl | hc2
    · obtain ⟨i0, hi0, hcat⟩ := hne c (List.mem_cons_self _ _)
      have hgrp : i0 ∈ items1.filter fun i => catOf i == c :=
        List.mem_filter.mpr ⟨hi0, by simp [hcat]⟩
      cases h : sortByDateDesc (items1.filter fun i => catOf i == c) with
      | nil =>
        exfalso
        have : i0 ∈ sortByDateDesc (items1.filter fun i => catOf i == c) :=
          mem_pySort.mpr hgrp
        rw [h] at this
        exact List.not_mem_nil i0 this
      | cons j t =>
        have hj : j ∈ items1.filter fun i => catOf i == c :=
          mem_of_mem_pySort (h ▸ List.mem_cons_self j t)
        have hcatj : catOf j = c := by
          have := (List.mem_filter.mp hj).2
          simpa using this
        refine ⟨j, seed_mem_mono items1 rest _ j ?_, hcatj⟩
        unfold seedStep
        rw [h]
        exact List.mem_append_right _ (List.mem_cons_self j [])
    · exact ih (seedStep items1 st0 c0)
        (fun c2 hc2 => hne c2 (List.mem_cons_of_mem _ hc2)) c hc2

theorem seed_countsOk (items1 : List CurItem) (cats : List String) (st0 : SelState)
    (h : CountsOk st0) : CountsOk (cats.foldl (seedStep items1) st0) := by
  induction cats generalizing st0 with
  | nil => exact h
  | cons c rest ih =>
    rw [List.foldl_cons]
    apply ih
    unfold seedStep
    cases hs : sortByDateDesc (items1.filter fun i => catOf i == c) with
    | nil => exact h
    | cons j t =>
      have hj : j ∈ items1.filter fun i => catOf i == c :=
        mem_of_mem_pySort (hs ▸ List.mem_cons_self j t)
      have hcatj : catOf j = c := by
        have := (List.mem_filter.mp hj).2
        simpa using this
      exact countsOk_addSel h hcatj.symm

theorem seed_catCount (items1 : List CurItem) (cats : List String) (st0 : SelState)
    (hnd : cats.Nodup) (c0 : String) :
    catCount ((cats.foldl (seedStep items1) st0).selected) c0
      ≤ catCount st0.selected c0 + (if c0 ∈ cats then 1 else 0) := by
  induction cats generalizing st0 with
  | nil => simp
  | cons c rest ih =>
    rw [List.foldl_cons]
    have hnotin : c ∉ rest := (List.nodup_cons.mp hnd).1
    have hrest : rest.Nodup := (List.nodup_cons.mp hnd).2
    have hstep : catCount ((seedStep items1 st0 c).selected) c0
        ≤ catCount st0.selected c0 + (if c0 = c then 1 else 0) := by
      unfold seedStep
      cases hs : sortByDateDesc (items1.filter fun i => catOf i == c) with
      | nil =>
        show catCount st0.selected c0 ≤ _
        split <;> omega
      | cons j t =>
        have hj : j ∈ items1.filter fun i => catOf i == c :=
          mem_of_mem_pySort (hs ▸ List.mem_cons_self j t)
        have hcatj : catOf j = c := by
          have := (List.mem_filter.mp hj).2
          simpa using this
        show catCount (st0.selected ++ [j]) c0 ≤ _
        rw [catCount_append, hcatj]
        by_cases he : c = c0
        · rw [if_pos he, if_pos he.symm]
        · rw [if_neg he, if_neg fun h2 => he h2.symm]
    calc catCount ((rest.foldl (seedStep items1) (seedStep items1 st0 c)).selected) c0
        ≤ catCount ((seedStep items1 st0 c).selected) c0 + (if c0 ∈ rest then 1 else 0) :=
          ih (seedStep items1 st0 c) hrest
      _ ≤ catCount st0.selected c0 + (if c0 = c then 1 else 0)
            + (if c0 ∈ rest then 1 else 0) := by omega
      _ ≤ catCount st0.selected c0 + (if c0 ∈ c :: rest then 1 else 0) := by
          by_cases h1 : c0 = c
          · have h2 : c0 ∉ rest := by
              rw [h1]
              exact hnotin
            simp [h1, h2]
            exact hnotin
          · by_cases h2 : c0 ∈ rest
            · simp [h1, h2]
            · have : c0 ∉ c :: rest := by
                simp [h1, h2]
              simp [h1, h2, this]

theorem seed_length (items1 : List CurItem) (cats : List String) (st0 : SelState)
    (hne : ∀ c ∈ cats, ∃ i ∈ items1, catOf i = c) :
    ((cats.foldl (seedStep items1) st0).selected).length
      = st0.selected.length + cats.length := by
  induction cats generalizing st0 with
  | nil => simp
  | cons c rest ih =>
    rw [List.foldl_cons]
    obtain ⟨i0, hi0, hcat⟩ := hne c (List.mem_cons_self _ _)
    have hgrp : i0 ∈ items1.filter fun i => catOf i == c :=
      List.mem_filter.mpr ⟨hi0, by simp [hcat]⟩
    have hlen1 : ((seedStep items1 st0 c).selected).length = st0.selected.length + 1 := by
      unfold seedStep
      cases h : sortByDateDesc (items1.filter fun i => catOf i == c) with
      | nil =>
        exfalso
        have : i0 ∈ sortByDateDesc (items1.filter fun i => catOf i == c) :=
          mem_pySort.mpr hgrp
        rw [h] at this
        exact List.not_mem_nil i0 this
      | cons j t => simp [addSel]
    rw [ih (seedStep items1 st0 c)
      (fun c2 hc2 => hne c2 (List.mem_cons_of_mem _ hc2)), hlen1]
    simp only [List.length_cons]
    omega

theorem fill_mono (target mc ms : Nat) (l : List CurItem) (st : SelState)
    (x : CurItem) (hx : x ∈ st.selected) :
    x ∈ (fillPass target mc ms l st).selected := by
  induction l generalizing st with
  | nil => exact hx
  | cons i rest ih =>
    unfold fillPass
    split
    · exact hx
    split
    · exact ih st hx
    split
    · exact ih st hx
    · exact ih (addSel st (catOf i) i) (List.mem_append_left _ hx)

theorem fill_countsOk (target mc ms : Nat) (l : List CurItem) (st : SelState)
    (h : CountsOk st) : CountsOk (fillPass target mc ms l st) := by
  induction l generalizing st with
  | nil => exact h
  | cons i rest ih =>
    unfold fillPass
    split
    · exact h
    split
    · exact ih st h
    split
    · exact ih st h
    · exact ih (addSel st (catOf i) i) (countsOk_addSel h rfl)

theorem fill_catCount_le (target mc ms : Nat) (l : List CurItem) (st : SelState)
    (hok : CountsOk st) (k : Nat) (hmc : mc ≤ k)
    (hst : ∀ c, catCount st.selected c ≤ k) :
    ∀ c, catCount ((fillPass target mc ms l st).selected) c ≤ k := by
  induction l generalizing st with
  | nil => exact hst
  | cons i rest ih =>
    unfold fillPass
    split
    · exact hst
    split
    · exact ih st hok hst
    split
    · exact ih st hok hst
    · rename_i hg1 hg2 hg3
      refine ih (addSel st (catOf i) i) (countsOk_addSel hok rfl) ?_
      intro c
      show catCount (st.selected ++ [i]) c ≤ k
      rw [catCount_append]
      by_cases hc : catOf i = c
      · rw [if_pos hc]
        have hlt : st.catCounts (catOf i) < mc := by omega
        rw [hok.1 (catOf i), hc] at hlt
        omega
      · rw [if_neg hc]
        have := hst c
        omega

theorem fill_srcCount_le (target mc ms : Nat) (l : List CurItem) (st : SelState)
    (hok : CountsOk st) :
    ∀ s, srcCount ((fillPass target mc ms l st).selected) s
      ≤ max ms (srcCount st.selected s) := by
  induction l generalizing st with
  | nil => exact fun s => Nat.le_max_right _ _
  | cons i rest ih =>
    unfold fillPass
    split
    · exact fun s => Nat.le_max_right _ _
    split
    · exact ih st hok
    split
    · exact ih st hok
    · rename_i hg1 hg2 hg3
      intro s
      have hrec := ih (addSel st (catOf i) i) (countsOk_addSel hok rfl) s
      have hstep : srcCount ((addSel st (catOf i) i).selected) s
          ≤ max ms (srcCount st.selected s) := by
        show srcCount (st.selected ++ [i]) s ≤ _
        rw [srcCount_append]
        by_cases hs : sourceKey i = s
        · rw [if_pos hs]
          have hlt : st.srcCounts (sourceKey i) < ms := by omega
          rw [hok.2 (sourceKey i), hs] at hlt
          omega
        · rw [if_neg hs]
          omega
      calc srcCount ((fillPass target mc ms rest (addSel st (catOf i) i)).selected) s
          ≤ max ms (srcCount ((addSel st (catOf i) i).selected) s) := hrec
        _ ≤ max ms (max ms (srcCount st.selected s)) := max_le_max (Nat.le_refl _) hstep
        _ = max ms (srcCount st.selected s) := by omega

theorem fill_at_target (target mc ms : Nat) (l : List CurItem) (st : SelState)
    (h : target ≤ st.selected.length) : fillPass target mc ms l st = st := by
  cases l with
  | nil => rfl
  | cons i rest =>
    unfold fillPass
    rw [if_pos h]

theorem relax_mono (target : Nat) (l : List CurItem) (sel : List CurItem)
    (x : CurItem) (hx : x ∈ sel) : x ∈ relaxPass target l sel := by
  induction l generalizing sel with
  | nil => exact hx
  | cons i rest ih =>
    unfold relaxPass
    split
    · exact hx
    split
    · exact ih sel hx
    · exact ih (sel ++ [i]) (List.mem_append_left _ hx)

theorem select_eq (items : List CurItem) (target mc ms : Nat)
    (h : items.isEmpty = false) :
    select_curated_items items target mc ms =
      if (curatorAfterFill items target mc ms).selected.length < target then
        relaxPass target
          (curatorRemaining (curatorSurvivors items) (curatorPass1 items).selected)
          (curatorAfterFill items target mc ms).selected
      else (curatorAfterFill items target mc ms).selected := by
  unfold select_curated_items
  rw [if_neg (by simp [h])]

end Curator

/-- Claim C1 (amended): with target 12 and caps 3/3, on an input spanning
at least 4 categories, the selection contains at least one item from every
category represented among the DEDUPLICATION SURVIVORS (the title
clustering can remove an input category entirely); and when the capped
fill pass already meets the target (so the caps were not relaxed) the
selection is exactly the fill-pass output, no category appears more than 3
times, and every source appears at most max 3 (its diversity-floor seed
count) times — the seeding pass itself ignores the source cap. -/
theorem claim_C1 (items : List Curator.CurItem)
    (_hcats : 4 ≤ Curator.numInputCategories items) :
    (∀ c ∈ Curator.categoriesOf (Curator.curatorSurvivors items),
      ∃ i ∈ Curator.select_curated_items items 12 3 3, Curator.catOf i = c) ∧
    (12 ≤ (Curator.curatorAfterFill items 12 3 3).selected.length →
      Curator.select_curated_items items 12 3 3
        = (Curator.curatorAfterFill items 12 3 3).selected ∧
      (∀ c, Curator.catCount (Curator.select_curated_items items 12 3 3) c ≤ 3) ∧
      (∀ s, Curator.srcCount (Curator.select_curated_items items 12 3 3) s
        ≤ max 3 (Curator.srcCount (Curator.curatorPass1 items).selected s))) := by
  have hne : ∀ c ∈ Curator.categoriesOf (Curator.curatorSurvivors items),
      ∃ i ∈ Curator.curatorSurvivors items, Curator.catOf i = c :=
    fun c hc => Curator.mem_categoriesOf.mp hc
  have hp1 : Curator.curatorPass1 items
      = (Curator.categoriesOf (Curator.curatorSurvivors items)).foldl
          (Curator.seedStep (Curator.curatorSurvivors items)) Curator.emptySel := by
    unfold Curator.curatorPass1
    exact Curator.pass1_byCat _
  have hok1 : Curator.CountsOk (Curator.curatorPass1 items) := by
    rw [hp1]
    exact Curator.seed_countsOk _ _ _ Curator.countsOk_empty
  constructor
  · intro c hc
    cases hE : items.isEmpty with
    | true =>
      exfalso
      have hnil : items = [] := List.isEmpty_iff.mp hE
      rw [hnil] at hc
      have hcat0 : Curator.categoriesOf (Curator.curatorSurvivors []) = [] := rfl
      rw [hcat0] at hc
      exact List.not_mem_nil c hc
    | false =>
      obtain ⟨x, hx, hxc⟩ :
          ∃ x ∈ (Curator.curatorPass1 items).selected, Curator.catOf x = c := by
        rw [hp1]
        exact Curator.seed_floor _ _ _ hne c hc
      have hx2 : x ∈ (Curator.curatorAfterFill items 12 3 3).selected :=
        Curator.fill_mono 12 3 3 _ _ x hx
      rw [Curator.select_eq items 12 3 3 hE]
      split
      · exact ⟨x, Curator.relax_mono 12 _ _ x hx2, hxc⟩
      · exact ⟨x, hx2, hxc⟩
  · intro hfull
    cases hE : items.isEmpty with
    | true =>
      exfalso
      have hnil : items = [] := List.isEmpty_iff.mp hE
      rw [hnil] at hfull
      exact absurd hfull (by decide)
    | false =>
      have hsel : Curator.select_curated_items items 12 3 3
          = (Curator.curatorAfterFill items 12 3 3).selected := by
        rw [Curator.select_eq items 12 3 3 hE, if_neg (by omega)]
      refine ⟨hsel, ?_, ?_⟩
      · intro c
        rw [hsel]
        have hseedcap : ∀ c2, Curator.catCount (Curator.curatorPass1 items).selected c2 ≤ 3 := by
          intro c2
          have := Curator.seed_catCount (Curator.curatorSurvivors items)
            (Curator.categoriesOf (Curator.curatorSurvivors items)) Curator.emptySel
            (Curator.nodup_dedupFirst _) c2
          rw [← Curator.pass1_byCat] at this
          have hz : Curator.catCount Curator.emptySel.selected c2 = 0 := rfl
          unfold Curator.curatorPass1
          split at this <;> omega
        exact Curator.fill_catCount_le 12 3 3 _ _ hok1 3 (Nat.le_refl 3) hseedcap c
      · intro s
        rw [hsel]
        exact Curator.fill_srcCount_le 12 3 3 _ _ hok1 s

/-- Claim C10 (amended): whenever the DEDUPLICATION SURVIVORS span more
distinct categories than target_count, the selection has exactly one item
per survivor category — more than target_count items — because the
diversity-floor pass never checks the target (input categories do not
suffice: the dedup step can merge away a category, see the
counterexample). -/
theorem claim_C10 (items : List Curator.CurItem) (target mc ms : Nat)
    (h : target < Curator.numSurvivorCategories items) :
    (Curator.select_curated_items items target mc ms).length
      = Curator.numSurvivorCategories items ∧
    target < (Curator.select_curated_items items target mc ms).length := by
  have hne : ∀ c ∈ Curator.categoriesOf (Curator.curatorSurvivors items),
      ∃ i ∈ Curator.curatorSurvivors items, Curator.catOf i = c :=
    fun c hc => Curator.mem_categoriesOf.mp hc
  have hlen1 : (Curator.curatorPass1 items).selected.length
      = Curator.numSurvivorCategories items := by
    unfold Curator.curatorPass1
    rw [Curator.pass1_byCat]
    rw [Curator.seed_length _ _ _ hne]
    simp [Curator.emptySel, Curator.numSurvivorCategories]
  have hE : items.isEmpty = false := by
    cases hE2 : items.isEmpty
    · rfl
    · exfalso
      have hnil : items = [] := List.isEmpty_iff.mp hE2
      rw [hnil] at h
      have : Curator.numSurvivorCategories ([] : List Curator.CurItem) = 0 := rfl
      omega
  have hfix : Curator.curatorAfterFill items target mc ms = Curator.curatorPass1 items := by
    unfold Curator.curatorAfterFill
    exact Curator.fill_at_target _ _ _ _ _ (by omega)
  have hsel : Curator.select_curated_items items target mc ms
      = (Curator.curatorPass1 items).selected := by
    rw [Curator.select_eq items target mc ms hE, hfix, if_neg (by omega)]
  rw [hsel, hlen1]
  exact ⟨rfl, h⟩

set_option maxRecDepth 8000 in
/-- Witness for C1: a 4-category input where the selection covers every
survivor category, here category c1. -/
theorem claim_C1_witness :
    4 ≤ Curator.numInputCategories c1witems ∧
    "c1" ∈ Curator.categoriesOf (Curator.curatorSurvivors c1witems) ∧
    ∃ i ∈ Curator.select_curated_items c1witems 12 3 3, Curator.catOf i = "c1" :=
  ⟨by decide, by decide, (claim_C1 c1witems (by decide)).1 "c1" (by decide)⟩

set_option maxRecDepth 20000 in
/-- Counterexample to C1 as stated: on c1items (5 input categories, target
12, caps 3/3) the capped fill pass reaches the target — so the caps were
never relaxed — yet input category p2 has no item in the selection (the
dedup step merged its only item into a p1 item) and source S appears 4
times, exceeding the per-source cap via the seeding pass. -/
theorem claim_C1_counterexample :
    4 ≤ Curator.numInputCategories c1items ∧
    "p2" ∈ Curator.categoriesOf c1items ∧
    (∀ i ∈ Curator.select_curated_items c1items 12 3 3, Curator.catOf i ≠ "p2") ∧
    12 ≤ (Curator.curatorAfterFill c1items 12 3 3).selected.length ∧
    Curator.srcCount (Curator.select_curated_items c1items 12 3 3) "S" = 4 := by
  decide

set_option maxRecDepth 8000 in
/-- Witness for C10: two survivor categories and target 1 give a
two-element selection. -/
theorem claim_C10_witness :
    1 < Curator.numSurvivorCategories c10witems ∧
    1 < (Curator.select_curated_items c10witems 1 3 3).length :=
  ⟨by decide, (claim_C10 c10witems 1 3 3 (by decide)).2⟩

set_option maxRecDepth 8000 in
/-- Counterexample to C10 as stated: the input spans 2 > 1 categories, but
the title clustering removes one of them, so the selection has exactly
target_count = 1 item, not more. -/
theorem claim_C10_counterexample :
    1 < Curator.numInputCategories c10items ∧
    (Curator.select_curated_items c10items 1 3 3).length = 1 := by
  decide

/-! ## Fingerprint lemmas (C7) -/

namespace Dedup

theorem keys_insertQS (d : List (String × List String)) (k : String) (v : String) :
    (insertQS d k v).map Prod.fst
      = if k ∈ d.map Prod.fst then d.map Prod.fst else d.map Prod.fst ++ [k] := by
  induction d with
  | nil => simp [insertQS]
  | cons p t ih =>
    cases p with
    | mk k2 vs =>
      by_cases hk : k2 = k
      · subst hk
        simp [insertQS]
      · simp only [insertQS, if_neg hk, List.map_cons, ih]
        have hne : ¬ k = k2 := fun he => hk he.symm
        by_cases hmem : k ∈ t.map Prod.fst
        · simp [hmem, hne]
        · simp [hmem, hne]

theorem nodupKeys_insertQS {d : List (String × List String)} (k : String) (v : String)
    (h : (d.map Prod.fst).Nodup) : ((insertQS d k v).map Prod.fst).Nodup := by
  rw [keys_insertQS]
  by_cases hmem : k ∈ d.map Prod.fst
  · rw [if_pos hmem]
    exact h
  · rw [if_neg hmem]
    have : (d.map Prod.fst ++ [k]).Nodup := by
      refine List.Nodup.append h (List.nodup_singleton k) ?_
      intro x hx hk2
      rw [List.mem_singleton] at hk2
      subst hk2
      exact hmem hx
    exact this

theorem parse_qs_nodupKeys (q : String) : ((parse_qs q).map Prod.fst).Nodup := by
  unfold parse_qs
  generalize (parse_qsl q) = pairs
  have hgen : ∀ (ps : List (String × String)) (d : List (String × List String)),
      (d.map Prod.fst).Nodup →
      ((ps.foldl (fun d p => insertQS d p.1 p.2) d).map Prod.fst).Nodup := by
    intro ps
    induction ps with
    | nil => exact fun d h => h
    | cons p t ih =>
      intro d h
      exact ih _ (nodupKeys_insertQS p.1 p.2 h)
  exact hgen pairs [] (by simp)

theorem qsLookup_mem_iff {d : List (String × List String)}
    (hnd : (d.map Prod.fst).Nodup) (k : String) (vs : List String) :
    (k, vs) ∈ d ↔ qsLookup d k = some vs := by
  induction d with
  | nil => simp [qsLookup]
  | cons p t ih =>
    cases p with
    | mk k2 vs2 =>
      have hnd2 : (t.map Prod.fst).Nodup := (List.nodup_cons.mp (by simpa using hnd)).2
      have hk2n : k2 ∉ t.map Prod.fst := (List.nodup_cons.mp (by simpa using hnd)).1
      by_cases hk : k2 = k
      · subst hk
        simp only [qsLookup, List.find?_cons, beq_self_eq_true, Option.map_some]
        constructor
        · intro hmem
          rcases List.mem_cons.mp hmem with he | hmem2
          · rw [Prod.mk.injEq] at he
            simp [he.2]
          · exfalso
            exact hk2n (List.mem_map.mpr ⟨(k2, vs), hmem2, rfl⟩)
        · intro he
          have he2 : vs2 = vs := by simpa using he
          subst he2
          exact List.mem_cons_self _ _
      · have hbeq : (k2 == k) = false := by
          simp [hk]
        simp only [qsLookup, List.find?_cons, hbeq]
        rw [← qsLookup]
        rw [← ih hnd2]
        constructor
        · intro hmem
          rcases List.mem_cons.mp hmem with he | hmem2
          · rw [Prod.mk.injEq] at he
            exact absurd he.1.symm hk
          · exact hmem2
        · intro hmem
          exact List.mem_cons_of_mem _ hmem

theorem qsLookup_filter_tracking {d : List (String × List String)} {n : String}
    (hn : n ∈ tracking_params) :
    qsLookup (d.filter fun p => !(tracking_params.contains p.1)) n = none := by
  induction d with
  | nil => rfl
  | cons p t ih =>
    cases hp : (tracking_params.contains p.1) with
    | true =>
      have hfil : ((p :: t).filter fun p => !(tracking_params.contains p.1))
          = t.filter fun p => !(tracking_params.contains p.1) := by
        rw [List.filter_cons, hp]
        rfl
      rw [hfil]
      exact ih
    | false =>
      have hnm : p.1 ∉ tracking_params := by simpa using hp
      have hne : (p.1 == n) = false := by
        have : p.1 ≠ n := fun he => hnm (he ▸ hn)
        simp [this]
      have hfil : ((p :: t).filter fun p => !(tracking_params.contains p.1))
          = p :: (t.filter fun p => !(tracking_params.contains p.1)) := by
        rw [List.filter_cons, hp]
        rfl
      rw [hfil]
      simp only [qsLookup, List.find?_cons, hne]
      exact ih

theorem qsLookup_filter_not_tracking {d : List (String × List String)} {n : String}
    (hn : n ∉ tracking_params) :
    qsLookup (d.filter fun p => !(tracking_params.contains p.1)) n = qsLookup d n := by
  induction d with
  | nil => rfl
  | cons p t ih =>
    cases hp : (tracking_params.contains p.1) with
    | true =>
      have hmem : p.1 ∈ tracking_params := by simpa using hp
      have hne : (p.1 == n) = false := by
        have : p.1 ≠ n := fun he => hn (he ▸ hmem)
        simp [this]
      have hfil : ((p :: t).filter fun p => !(tracking_params.contains p.1))
          = t.filter fun p => !(tracking_params.contains p.1) := by
        rw [List.filter_cons, hp]
        rfl
      rw [hfil, ih]
      show qsLookup t n = qsLookup (p :: t) n
      simp only [qsLookup, List.find?_cons, hne]
    | false =>
      have hfil : ((p :: t).filter fun p => !(tracking_params.contains p.1))
          = p :: (t.filter fun p => !(tracking_params.contains p.1)) := by
        rw [List.filter_cons, hp]
        rfl
      rw [hfil]
      cases hb : (p.1 == n) with
      | true => simp [qsLookup, List.find?_cons, hb]
      | false =>
        simp only [qsLookup, List.find?_cons, hb]
        exact ih

theorem pairwise_insertS {le : α → α → Bool}
    (htot : ∀ a b, le a b = true ∨ le b a = true)
    (htrans : ∀ a b c, le a b = true → le b c = true → le a c = true)
    {l : List α} {a : α} (h : l.Pairwise fun x y => le x y = true) :
    (insertS le a l).Pairwise fun x y => le x y = true := by
  induction l with
  | nil => simp [insertS]
  | cons b t ih =>
    by_cases hab : le a b = true
    · simp only [insertS, if_pos hab]
      refine List.pairwise_cons.mpr ⟨?_, h⟩
      intro x hx
      rcases List.mem_cons.mp hx with rfl | hx2
      · exact hab
      · exact htrans a b x hab ((List.pairwise_cons.mp h).1 x hx2)
    · simp only [insertS, if_neg hab]
      have hba : le b a = true := by
        rcases htot a b with h2 | h2
        · exact absurd h2 hab
        · exact h2
      refine List.pairwise_cons.mpr ⟨?_, ih (List.pairwise_cons.mp h).2⟩
      intro x hx
      have hx2 := (insertS_perm le a t).mem_iff.mp hx
      rcases List.mem_cons.mp hx2 with rfl | hx3
      · exact hba
      · exact (List.pairwise_cons.mp h).1 x hx3

theorem pairwise_pySort {le : α → α → Bool}
    (htot : ∀ a b, le a b = true ∨ le b a = true)
    (htrans : ∀ a b c, le a b = true → le b c = true → le a c = true)
    (l : List α) : (pySort le l).Pairwise fun x y => le x y = true := by
  induction l with
  | nil => simp [pySort]
  | cons a t ih => exact pairwise_insertS htot htrans ih

/-- Two key-sorted association lists with duplicate-free keys that are
permutations of each other are equal. -/
theorem sortedPairs_unique : ∀ {l₁ l₂ : List (String × List String)},
    l₁.Perm l₂ → (l₁.Pairwise fun a b => a.1 ≤ b.1) →
    (l₂.Pairwise fun a b => a.1 ≤ b.1) → (l₁.map Prod.fst).Nodup → l₁ = l₂ := by
  intro l₁
  induction l₁ with
  | nil =>
    intro l₂ hp _ _ _
    exact (hp.symm.eq_nil).symm
  | cons a t ih =>
    intro l₂ hp h₁ h₂ hnd
    have ha : a ∈ l₂ := hp.mem_iff.mp (List.mem_cons_self a t)
    cases l₂ with
    | nil => exact absurd ha (List.not_mem_nil a)
    | cons b t₂ =>
      have hab : a = b := by
        by_contra hne
        have ha2 : a ∈ t₂ := by
          rcases List.mem_cons.mp ha with h | h
          · exact absurd h hne
          · exact h
        have hb1 : b ∈ a :: t := hp.symm.mem_iff.mp (List.mem_cons_self b t₂)
        have hb2 : b ∈ t := by
          rcases List.mem_cons.mp hb1 with h | h
          · exact absurd h.symm hne
          · exact h
        have hle1 : a.1 ≤ b.1 := (List.pairwise_cons.mp h₁).1 b hb2
        have hle2 : b.1 ≤ a.1 := (List.pairwise_cons.mp h₂).1 a ha2
        have hkey : a.1 = b.1 := le_antisymm hle1 hle2
        have hmem : a.1 ∈ t.map Prod.fst := List.mem_map.mpr ⟨b, hb2, hkey.symm⟩
        exact (List.nodup_cons.mp (by simpa using hnd)).1 hmem
      subst hab
      have hp2 : t.Perm t₂ := hp.cons_inv
      have heq := ih hp2 (List.pairwise_cons.mp h₁).2 (List.pairwise_cons.mp h₂).2
        (List.nodup_cons.mp (by simpa using hnd)).2
      rw [heq]

/-- The core invariance of the query re-encoding: queries whose parse_qs
dictionaries agree on every non-tracking key produce the same filtered,
key-sorted, re-encoded query string. -/
theorem sortedQuery_ext {q1 q2 : String}
    (h : ∀ n, n ∉ tracking_params →
      qsLookup (parse_qs q1) n = qsLookup (parse_qs q2) n) :
    sortedQuery q1 = sortedQuery q2 := by
  unfold sortedQuery
  simp only []
  have hnd1 : (((parse_qs q1).filter fun p => !(tracking_params.contains p.1)).map
      Prod.fst).Nodup :=
    (parse_qs_nodupKeys q1).sublist ((List.filter_sublist _).map Prod.fst)
  have hnd2 : (((parse_qs q2).filter fun p => !(tracking_params.contains p.1)).map
      Prod.fst).Nodup :=
    (parse_qs_nodupKeys q2).sublist ((List.filter_sublist _).map Prod.fst)
  have hlook : ∀ n, qsLookup ((parse_qs q1).filter
        fun p => !(tracking_params.contains p.1)) n
      = qsLookup ((parse_qs q2).filter fun p => !(tracking_params.contains p.1)) n := by
    intro n
    by_cases hn : n ∈ tracking_params
    · rw [qsLookup_filter_tracking hn, qsLookup_filter_tracking hn]
    · rw [qsLookup_filter_not_tracking hn, qsLookup_filter_not_tracking hn]
      exact h n hn
  have hperm : ((parse_qs q1).filter fun p => !(tracking_params.contains p.1)).Perm
      ((parse_qs q2).filter fun p => !(tracking_params.contains p.1)) := by
    rw [List.perm_ext_iff_of_nodup (hnd1.of_map _) (hnd2.of_map _)]
    intro p
    cases p with
    | mk k vs =>
      rw [qsLookup_mem_iff hnd1, qsLookup_mem_iff hnd2, hlook k]
  have htot : ∀ a b : String × List String,
      (decide (a.1 ≤ b.1)) = true ∨ (decide (b.1 ≤ a.1)) = true := by
    intro a b
    rcases le_total a.1 b.1 with h2 | h2
    · exact Or.inl (decide_eq_true h2)
    · exact Or.inr (decide_eq_true h2)
  have htrans : ∀ a b c : String × List String,
      (decide (a.1 ≤ b.1)) = true → (decide (b.1 ≤ c.1)) = true →
      (decide (a.1 ≤ c.1)) = true := by
    intro a b c h1 h2
    exact decide_eq_true (le_trans (of_decide_eq_true h1) (of_decide_eq_true h2))
  have hs1 := pairwise_pySort htot htrans
    ((parse_qs q1).filter fun p => !(tracking_params.contains p.1))
  have hs2 := pairwise_pySort htot htrans
    ((parse_qs q2).filter fun p => !(tracking_params.contains p.1))
  have hsperm : (pySort (fun a b => decide (a.1 ≤ b.1))
        ((parse_qs q1).filter fun p => !(tracking_params.contains p.1))).Perm
      (pySort (fun a b => decide (a.1 ≤ b.1))
        ((parse_qs q2).filter fun p => !(tracking_params.contains p.1))) :=
    ((pySort_perm _ _).trans hperm).trans (pySort_perm _ _).symm
  have hsnd : ((pySort (fun a b => decide (a.1 ≤ b.1))
      ((parse_qs q1).filter fun p => !(tracking_params.contains p.1))).map
      Prod.fst).Nodup :=
    ((pySort_perm _ _).map Prod.fst).nodup_iff.mpr hnd1
  have heq := sortedPairs_unique hsperm
    (hs1.imp fun h2 => of_decide_eq_true h2)
    (hs2.imp fun h2 => of_decide_eq_true h2) hsnd
  rw [heq]

theorem flatMap_byteHex_length (l : List Nat) :
    (l.flatMap byteHex).length = 2 * l.length := by
  induction l with
  | nil => rfl
  | cons b t ih =>
    simp only [List.flatMap_cons, List.length_append, ih, byteHex]
    simp
    omega

theorem sha256_length (msg : List Nat) : (sha256 msg).length = 32 := by
  unfold sha256 wordBytes
  simp

theorem hexDigitLower_mem (n : Nat) : hexDigitLower n ∈ hexAlphabet := by
  unfold hexDigitLower
  rcases Nat.lt_or_ge n hexAlphabet.length with h | h
  · rw [List.getD_eq_getElem hexAlphabet '0' h]
    exact List.getElem_mem h
  · rw [List.getD_eq_default hexAlphabet '0' h]
    decide

theorem hash_text_format (s : String) :
    (hash_text s).length = 64 ∧ ∀ c ∈ (hash_text s).data, c ∈ hexAlphabet := by
  constructor
  · show ((sha256 (utf8Encode s.data)).flatMap byteHex).length = 64
    rw [flatMap_byteHex_length, sha256_length]
  · intro c hc
    have hc2 : c ∈ (sha256 (utf8Encode s.data)).flatMap byteHex := hc
    obtain ⟨b, _, hcb⟩ := List.mem_flatMap.mp hc2
    rcases List.mem_cons.mp hcb with rfl | hcb2
    · exact hexDigitLower_mem _
    · rcases List.mem_cons.mp hcb2 with rfl | hcb3
      · exact hexDigitLower_mem _
      · exact absurd hcb3 (List.not_mem_nil c)

end Dedup

/-- Claim C7 (amended): normalize_url is invariant under every variant
that preserves the lower-cased scheme and netloc, the right-stripped path,
and the parse_qs dictionary restricted to non-tracking keys — this covers
scheme/host casing, a trailing slash, any fragment, removal of tracking
parameters, and query-parameter reorderings that keep same-named
parameters in their relative order.  (Reordering same-named parameters is
NOT covered: see the counterexample.)  Equal normalizations give equal
fingerprints, and every fingerprint is a 64-character lowercase-hex
digest; both functions are pure Lean functions, hence deterministic. -/
theorem claim_C7 (u v : String)
    (hscheme : Dedup.lowerStr (Dedup.urlparse (pyStrip u)).scheme
      = Dedup.lowerStr (Dedup.urlparse (pyStrip v)).scheme)
    (hnetloc : Dedup.lowerStr (Dedup.urlparse (pyStrip u)).netloc
      = Dedup.lowerStr (Dedup.urlparse (pyStrip v)).netloc)
    (hpath : Dedup.rstripSlashOrRoot (Dedup.urlparse (pyStrip u)).path
      = Dedup.rstripSlashOrRoot (Dedup.urlparse (pyStrip v)).path)
    (hq : ∀ n, n ∉ Dedup.tracking_params →
      Dedup.qsLookup (Dedup.parse_qs (Dedup.urlparse (pyStrip u)).query) n
        = Dedup.qsLookup (Dedup.parse_qs (Dedup.urlparse (pyStrip v)).query) n) :
    Dedup.normalize_url u = Dedup.normalize_url v ∧
    Dedup.generate_url_hash u = Dedup.generate_url_hash v ∧
    (Dedup.generate_url_hash u).length = 64 ∧
    ∀ c ∈ (Dedup.generate_url_hash u).data, c ∈ Dedup.hexAlphabet := by
  have hnorm : Dedup.normalize_url u = Dedup.normalize_url v := by
    unfold Dedup.normalize_url
    simp only []
    rw [hscheme, hnetloc, hpath, Dedup.sortedQuery_ext hq]
  refine ⟨hnorm, ?_, ?_, ?_⟩
  · show Dedup.hash_text (Dedup.normalize_url u)
      = Dedup.hash_text (Dedup.normalize_url v)
    rw [hnorm]
  · exact (Dedup.hash_text_format _).1
  · exact (Dedup.hash_text_format _).2

/-- Witness for C7: two URLs differing in scheme/host casing, a trailing
slash and the fragment normalize and fingerprint identically, and the
fingerprint is a 64-hex-character digest. -/
theorem claim_C7_witness :
    Dedup.normalize_url "HTTPS://Example.com/path/?b=2&a=1#frag"
      = Dedup.normalize_url "https://example.com/path?b=2&a=1" ∧
    Dedup.generate_url_hash "HTTPS://Example.com/path/?b=2&a=1#frag"
      = Dedup.generate_url_hash "https://example.com/path?b=2&a=1" ∧
    (Dedup.generate_url_hash "HTTPS://Example.com/path/?b=2&a=1#frag").length = 64 := by
  have hqe : (Dedup.urlparse (pyStrip "HTTPS://Example.com/path/?b=2&a=1#frag")).query
      = (Dedup.urlparse (pyStrip "https://example.com/path?b=2&a=1")).query := by
    decide
  have h := claim_C7 "HTTPS://Example.com/path/?b=2&a=1#frag"
    "https://example.com/path?b=2&a=1" (by decide) (by decide) (by decide)
    (fun n _ => by rw [hqe])
  exact ⟨h.1, h.2.1, h.2.2.1⟩

/-- Counterexample to C7 as stated: two URLs that differ only in
query-parameter order (the two same-named parameters a=1 and a=2 are
swapped) do not normalize identically, because parse_qs keeps per-key
value order and the sort only orders distinct keys. -/
theorem claim_C7_counterexample :
    Dedup.queryOrderVariant "http://e.com/?a=1&a=2" "http://e.com/?a=2&a=1" ∧
    Dedup.normalize_url "http://e.com/?a=1&a=2"
      ≠ Dedup.normalize_url "http://e.com/?a=2&a=1" := by
  constructor
  · refine ⟨by decide, by decide, by decide, by decide, by decide, ?_⟩
    have h1 : Dedup.queryFields "http://e.com/?a=1&a=2"
        = [['a', '=', '1'], ['a', '=', '2']] := by decide
    have h2 : Dedup.queryFields "http://e.com/?a=2&a=1"
        = [['a', '=', '2'], ['a', '=', '1']] := by decide
    rw [h1, h2]
    exact List.Perm.swap _ _ _
  · decide

end LaDataJusta
